import Mathlib

/-!
Verification of the data-quality-gated report consolidation pipeline of the
ARQV30 repository (src/services/consolidacao_final.py and the statistics
routine of src/services/comprehensive_report_generator_v3.py).

The Python code is shallowly embedded: Python values are modelled by the
inductive type `Val` (dictionaries are association lists with string keys,
which covers every dictionary the modelled code builds or probes), and
Python exceptions by `Except PyErr`.  Each Lean definition mirrors one
Python function of the source, including its try/except structure: an
operation that can raise returns `Except PyErr Val`, a function whose body
is wrapped in a catch-all handler is total.  Python floats reached by the
modelled code are exact binary rationals (integers and halves), so they are
modelled exactly by `Rat`; integer-valued float results (for example the
score `(criterios/5)*100`, whose IEEE-754 double evaluation is provably the
exact integer `criterios*20` for `criterios` in 0..5) are stored as `Val.int`.

The persistent step store (services/auto_save_manager.py) and the analyses
data manager are collaborators of this pipeline that are not part of the
sources under verification; they are abstracted by the `Env` structure,
modelled from the specification of the Persistent Step Store interface.
-/

namespace Consolidacao

/-- Model of a Python runtime value as reached by the consolidation code:
None, bool, int, float (exact rational, see the file header), str, list and
dict with string keys.  All dictionaries the modelled code constructs or
subscripts are keyed by strings. -/
inductive Val where
  | none : Val
  | bool : Bool → Val
  | int : Int → Val
  | float : Rat → Val
  | str : String → Val
  | list : List Val → Val
  | dict : List (String × Val) → Val
deriving Repr

/-- Model of the Python exceptions the consolidation code can raise:
KeyError (missing dict key), TypeError (wrong operand type, unhashable
key, unsupported comparison or format), AttributeError (calling .get or
.append or .keys on a value without that method), ValueError (bad format
spec argument), and an opaque error raised by an external collaborator. -/
inductive PyErr where
  | keyError : String → PyErr
  | typeError : PyErr
  | attributeError : PyErr
  | valueError : PyErr
  | envError : String → PyErr
deriving Repr, DecidableEq

/-- str(e) for an exception, as interpolated into report fields.  The
precise message text is not inspected by any claim. -/
def PyErr.msg : PyErr → String
  | .keyError k => k
  | .typeError => "TypeError"
  | .attributeError => "AttributeError"
  | .valueError => "ValueError"
  | .envError s => s

/-- Update of an association list at a key, in place when present
(Python dict assignment preserves insertion position) and appended
otherwise. -/
def dset : List (String × Val) → String → Val → List (String × Val)
  | [], k, x => [(k, x)]
  | (k1, v1) :: rest, k, x =>
      if k1 = k then (k1, x) :: rest else (k1, v1) :: dset rest k x

/-- Dictionary lookup, returning `Option.none` on a non-dict receiver; only
used where the receiver is a dict or where absence is the intended
reading. -/
def Val.get? : Val → String → Option Val
  | .dict d, k => List.lookup k d
  | _, _ => Option.none

/-- Python item assignment d[k] = x.  Every assignment target in the
modelled code is a dict built by the code itself, so the non-dict case
(which Python would reject) is the identity and is never reached. -/
def Val.set : Val → String → Val → Val
  | .dict d, k, x => .dict (dset d k x)
  | v, _, _ => v

/-- Whether the value is a Python dict. -/
def Val.isDict : Val → Bool
  | .dict _ => true
  | _ => false

/-- Python truthiness: None, False, 0, 0.0, the empty string, the empty
list and the empty dict are falsy. -/
def Val.truthy : Val → Bool
  | .none => false
  | .bool b => b
  | .int n => n != 0
  | .float q => q != 0
  | .str s => s ≠ ""
  | .list l => !l.isEmpty
  | .dict d => !d.isEmpty

/-- Python d[k] on a string key: KeyError when the key is absent,
TypeError when the receiver is a list or a string (subscripting by a
string) and on the remaining non-subscriptable values. -/
def pyGetItem : Val → String → Except PyErr Val
  | .dict d, k =>
      match List.lookup k d with
      | some v => .ok v
      | Option.none => .error (.keyError k)
  | _, _ => .error .typeError

/-- Python d.get(k, default): AttributeError when the receiver is not a
dict. -/
def pyGet (v : Val) (k : String) (dflt : Val) : Except PyErr Val :=
  match v with
  | .dict d => .ok ((List.lookup k d).getD dflt)
  | _ => .error .attributeError

/-- Python len(): defined for lists, dicts and strings, TypeError
otherwise. -/
def pyLen : Val → Except PyErr Int
  | .list l => .ok l.length
  | .dict d => .ok d.length
  | .str s => .ok s.length
  | _ => .error .typeError

/-- Numeric reading of a value for comparisons: bool counts as 0 or 1
(Python bool is an int subclass), int and float are exact. -/
def pyNum? : Val → Option Rat
  | .bool b => some (if b then 1 else 0)
  | .int n => some n
  | .float q => some q
  | _ => Option.none

/-- Python x >= n for an integer threshold n: TypeError on non-numeric x
(None, str, list, dict against an int). -/
def pyGeInt (v : Val) (n : Int) : Except PyErr Bool :=
  match pyNum? v with
  | some q => .ok (decide ((n : Rat) ≤ q))
  | Option.none => .error .typeError

/-- Python equality x == y restricted to the cases the modelled code
exercises (comparisons against string literals and membership tests of
strings in lists); bool and int compare across the two types as in
Python.  Structural equality of two dicts is approximated by pairwise
ordered equality, a case no modelled comparison reaches. -/
def valEq : Val → Val → Bool
  | .none, .none => true
  | .bool a, .bool b => a == b
  | .bool a, .int n => (if a then (1 : Int) else 0) == n
  | .int n, .bool a => n == (if a then (1 : Int) else 0)
  | .int a, .int b => a == b
  | .int a, .float b => (a : Rat) == b
  | .float a, .int b => a == (b : Rat)
  | .float a, .float b => a == b
  | .str a, .str b => a == b
  | .list a, .list b => valEqList a b
  | .dict a, .dict b => valEqDict a b
  | _, _ => false
where
  valEqList : List Val → List Val → Bool
    | [], [] => true
    | a :: as0, b :: bs => valEq a b && valEqList as0 bs
    | _, _ => false
  valEqDict : List (String × Val) → List (String × Val) → Bool
    | [], [] => true
    | (k1, a) :: as0, (k2, b) :: bs => k1 == k2 && valEq a b && valEqDict as0 bs
    | _, _ => false

/-- Membership of a value in a string-keyed dict: lists and dicts are
unhashable and raise TypeError; the remaining non-string hashable values
never equal a string key. -/
def pyDictContains (d : List (String × Val)) : Val → Except PyErr Bool
  | .str s => .ok (d.any (fun p => p.1 == s))
  | .list _ => .error .typeError
  | .dict _ => .error .typeError
  | _ => .ok false

/-- Substring test over character lists, for Python membership in a
string. -/
def listContainsSub (needle : List Char) : List Char → Bool
  | [] => needle.isEmpty
  | c :: cs => needle.isPrefixOf (c :: cs) || listContainsSub needle cs

/-- Python needle in hay for strings (substring containment). -/
def strContains (hay needle : String) : Bool :=
  listContainsSub needle.data hay.data

/-- Python x in container: key membership for dicts, element membership
for lists, substring for strings, TypeError otherwise. -/
def pyIn (x : Val) : Val → Except PyErr Bool
  | .dict d => pyDictContains d x
  | .list l => .ok (l.any (fun e => valEq x e))
  | .str h =>
      match x with
      | .str n => .ok (strContains h n)
      | _ => .error .typeError
  | _ => .error .typeError

/-- Python iteration: lists yield elements, strings yield one-character
strings, dicts yield their keys; other values are not iterable. -/
def pyIter : Val → Except PyErr (List Val)
  | .list l => .ok l
  | .str s => .ok (s.data.map (fun c => .str (String.mk [c])))
  | .dict d => .ok (d.map (fun p => .str p.1))
  | _ => .error .typeError

end Consolidacao

namespace Consolidacao

mutual

/-- Python str(x), as interpolated into f-strings.  Container elements are
rendered without the quoting Python repr would add; no claim inspects the
rendered text beyond letter content, which the simplification preserves. -/
def pyStr : Val → String
  | .none => "None"
  | .bool b => if b then "True" else "False"
  | .int n => toString n
  | .float q => toString q
  | .str s => s
  | .list l => "[" ++ pyStrList l ++ "]"
  | .dict d => "\x7b" ++ pyStrDict d ++ "\x7d"

/-- Comma-joined rendering of list elements. -/
def pyStrList : List Val → String
  | [] => ""
  | [x] => pyStr x
  | x :: xs => pyStr x ++ ", " ++ pyStrList xs

/-- Comma-joined rendering of dict entries. -/
def pyStrDict : List (String × Val) → String
  | [] => ""
  | [(k, x)] => k ++ ": " ++ pyStr x
  | (k, x) :: xs => k ++ ": " ++ pyStr x ++ ", " ++ pyStrDict xs

end

mutual

/-- json.dumps of a value.  Every `Val` is JSON-serializable, so the
serializer is total; the exact layout (indentation) is not inspected by
any claim. -/
def pyJsonDumps : Val → String
  | .none => "null"
  | .bool b => if b then "true" else "false"
  | .int n => toString n
  | .float q => toString q
  | .str s => "\"" ++ s ++ "\""
  | .list l => "[" ++ pyJsonDumpsList l ++ "]"
  | .dict d => "\x7b" ++ pyJsonDumpsDict d ++ "\x7d"

/-- Comma-joined JSON rendering of list elements. -/
def pyJsonDumpsList : List Val → String
  | [] => ""
  | [x] => pyJsonDumps x
  | x :: xs => pyJsonDumps x ++ ", " ++ pyJsonDumpsList xs

/-- Comma-joined JSON rendering of dict entries. -/
def pyJsonDumpsDict : List (String × Val) → String
  | [] => ""
  | [(k, x)] => "\"" ++ k ++ "\": " ++ pyJsonDumps x
  | (k, x) :: xs => "\"" ++ k ++ "\": " ++ pyJsonDumps x ++ ", " ++ pyJsonDumpsDict xs

end

/-- Modelled from the spec: the Persistent Step Store
(services/auto_save_manager.py, not among the sources under verification)
and the analyses data manager, abstracted as the external collaborators of
the consolidation pipeline.  The spec gives the consumed contract: list
steps for a session, load a named step, save a named step
(fire-and-forget), list the session files; no transactional guarantee is
assumed, and any call may fail, which the model expresses by Except
results.  The directory scan of listar_arquivos_intermediarios is
abstracted as the list of entries accumulated before an optional failure,
matching the try/except-return-partial structure of that function.
Timestamps are opaque strings: the code only interpolates them. -/
structure Env where
  listar_etapas_salvas : String → Except PyErr Val
  recuperar_etapa : String → String → Except PyErr Val
  arquivos_scan : String → List Val × Option PyErr
  salvar_etapa : String → Val → String → Except PyErr Unit
  salvar_erro : String → Except PyErr Unit
  ensure_modules_exist : Except PyErr Unit
  integrate_to_final_analysis : String → Val → Except PyErr Val
  write_file : String → String → Except PyErr Unit
  now_iso : String
  now_stamp : String

/-- ConsolidacaoFinal.quality_thresholds: the five configured minimums.
The fifth, min_content_length, enters the criteria total but is never
checked by the validator. -/
def quality_thresholds : List (String × Int) :=
  [("min_drivers_mentais", 2), ("min_provas_visuais", 1),
   ("min_fontes_pesquisa", 3), ("min_insights", 5),
   ("min_content_length", 1000)]

/-- ConsolidacaoFinal._listar_arquivos_intermediarios: scans the
relatorios_intermediarios tree for files of the session; the scan is
wrapped in a catch-all handler, so the entries accumulated before any
failure are returned and the function never raises. -/
def listar_arquivos_intermediarios (env : Env) (session_id : String) : Val :=
  .list (env.arquivos_scan session_id).1

/-- One iteration of the recovery loop of
ConsolidacaoFinal._coletar_todos_dados (lines 146-154): recover the step,
and when it is truthy with status "sucesso" store its dados under the step
name and append the name to componentes_disponiveis; every exception in
the body is caught and the iteration is skipped, keeping the mutations
already applied. -/
def coletar_step (env : Env) (session_id : String) (dc : Val) (etapa_nome : String) : Val :=
  match env.recuperar_etapa etapa_nome session_id with
  | .error _ => dc
  | .ok dados_etapa =>
    if dados_etapa.truthy then
      match pyGet dados_etapa "status" .none with
      | .error _ => dc
      | .ok st =>
        if valEq st (.str "sucesso") then
          match pyGet dados_etapa "dados" .none with
          | .error _ => dc
          | .ok dados =>
            let dc1 := dc.set etapa_nome dados
            match pyGetItem dc1 "componentes_disponiveis" with
            | .error _ => dc1
            | .ok comp =>
              match comp with
              | .list l => dc1.set "componentes_disponiveis" (.list (l ++ [.str etapa_nome]))
              | _ => dc1
        else dc
    else dc

/-- ConsolidacaoFinal._coletar_todos_dados: builds the collected-data dict,
lists the saved steps, recovers each step, and lists the intermediate
files.  The body is wrapped in a try whose handler calls salvar_erro and
falls through to returning the dict with the mutations applied so far; a
failure raised by salvar_erro itself escapes (and is caught by the entry
point).  The final logging line takes len of componentes_disponiveis,
which can raise when a recovered step clobbered that key with an unsized
value; the handler then returns the dict unchanged. -/
def coletar_todos_dados (env : Env) (dados_pipeline : Val) (session_id : String) :
    Except PyErr Val :=
  let dc0 : Val := .dict [("dados_pipeline", dados_pipeline),
                          ("etapas_salvas", .dict []),
                          ("arquivos_encontrados", .list []),
                          ("componentes_disponiveis", .list [])]
  match env.listar_etapas_salvas session_id with
  | .error _ =>
      match env.salvar_erro "coleta_dados" with
      | .ok _ => .ok dc0
      | .error e2 => .error e2
  | .ok etapas_salvas =>
      let dc1 := dc0.set "etapas_salvas" etapas_salvas
      match etapas_salvas with
      | .dict entries =>
          let dc2 := entries.foldl (fun dc p => coletar_step env session_id dc p.1) dc1
          let dc3 := dc2.set "arquivos_encontrados" (listar_arquivos_intermediarios env session_id)
          match pyGetItem dc3 "componentes_disponiveis" with
          | .error _ =>
              match env.salvar_erro "coleta_dados" with
              | .ok _ => .ok dc3
              | .error e2 => .error e2
          | .ok comp =>
              match pyLen comp with
              | .ok _ => .ok dc3
              | .error _ =>
                  match env.salvar_erro "coleta_dados" with
                  | .ok _ => .ok dc3
                  | .error e2 => .error e2
      | _ =>
          match env.salvar_erro "coleta_dados" with
          | .ok _ => .ok dc1
          | .error e2 => .error e2

end Consolidacao

namespace Consolidacao

/-- Append a message to the problemas_identificados list of the validation
dict; the field is a list in every state the validator reaches. -/
def append_problema (v : Val) (msg : String) : Val :=
  match v.get? "problemas_identificados" with
  | some (.list l) => v.set "problemas_identificados" (.list (l ++ [.str msg]))
  | _ => v

/-- Drivers signal of ConsolidacaoFinal._validar_qualidade_dados (lines
182-186): when drivers_mentais_customizados is a dict carrying
drivers_customizados, its len; this len is the only operation of the
signal block that can raise.  Missing key or wrong type counts zero. -/
def sig_drivers (d : List (String × Val)) : Except PyErr Int :=
  match List.lookup "drivers_mentais_customizados" d with
  | some (.dict dd) =>
      match List.lookup "drivers_customizados" dd with
      | some x => pyLen x
      | Option.none => .ok 0
  | _ => .ok 0

/-- Visual-proofs signal (lines 188-192): the length of
provas_visuais_sugeridas when it is a list, zero otherwise. -/
def sig_provas (d : List (String × Val)) : Int :=
  match List.lookup "provas_visuais_sugeridas" d with
  | some (.list l) => l.length
  | _ => 0

/-- Research signal (lines 194-198): pesquisa_web_massiva.get of
unique_sources with default 0 when the step is a dict; the stored value is
whatever the dict holds, not necessarily a number. -/
def sig_pesquisa (d : List (String × Val)) : Val :=
  match List.lookup "pesquisa_web_massiva" d with
  | some (.dict pd) => (List.lookup "unique_sources" pd).getD (.int 0)
  | _ => .int 0

/-- Insights signal (lines 200-204): the length of insights_exclusivos
when it is a list, zero otherwise. -/
def sig_insights (d : List (String × Val)) : Int :=
  match List.lookup "insights_exclusivos" d with
  | some (.list l) => l.length
  | _ => 0

/-- The satisfied-criteria count of _validar_qualidade_dados (lines
206-228): one per signal meeting its fixed minimum, over the four checked
signals; the fifth configured threshold is never checked.  The research
comparison result arrives as the Boolean b3 because its stored signal may
be non-numeric. -/
def contar_criterios (dm pv : Int) (b3 : Bool) (ic : Int) : Int :=
  (if 2 ≤ dm then 1 else 0) + (if 1 ≤ pv then 1 else 0) +
  (if b3 then 1 else 0) + (if 5 ≤ ic then 1 else 0)

/-- The advisory recommendations appended when quality is insufficient
(lines 236-241). -/
def recomendacoes_padrao : List Val :=
  [.str "Configure mais APIs para melhorar qualidade",
   .str "Execute nova análise com dados mais específicos",
   .str "Verifique conectividade de internet",
   .str "Considere análise manual dos dados intermediários"]

/-- Extend the recomendacoes list field (Python list.extend). -/
def extend_recomendacoes (v : Val) (xs : List Val) : Val :=
  match v.get? "recomendacoes" with
  | some (.list l) => v.set "recomendacoes" (.list (l ++ xs))
  | _ => v

/-- Body of the try of ConsolidacaoFinal._validar_qualidade_dados (lines
181-245) over the collected dict entries d and the initial validation dict
v0.  The four signal counts are computed first (in the source each count
is assigned as computed, but only the drivers len — the first of them —
can raise, so assigning all four after it is state-equivalent at every
possible raise point); then the four threshold checks run in source
order, appending one problem per failed check.  Of the checks only the
research one can raise (its stored signal may be non-numeric); the
catch-all handler appends the error to problemas_identificados and
returns the dict as mutated so far, so score_qualidade is present exactly
when the body completed.  The score (criterios/5)*100 and the sufficiency
comparison criterios/5 >= 0.6 are evaluated by Python in doubles; both
are provably exact for criterios in 0..5, giving score = criterios*20 and
sufficiency iff criterios >= 3. -/
def validar_qualidade_try (d : List (String × Val)) (v0 : Val) : Val :=
  match sig_drivers d with
  | .error e => append_problema v0 ("Erro na validação: " ++ e.msg)
  | .ok dm =>
    let pv := sig_provas d
    let pf := sig_pesquisa d
    let ic := sig_insights d
    let v1 := ((((v0.set "drivers_mentais_count" (.int dm)).set
                  "provas_visuais_count" (.int pv)).set
                  "pesquisa_fontes" pf).set
                  "insights_count" (.int ic))
    let dms := toString dm
    let pvs := toString pv
    let pfs := pyStr pf
    let ics := toString ic
    let v2 := if 2 ≤ dm then v1 else
      append_problema v1 ("Drivers mentais insuficientes: " ++ dms ++ " < 2")
    let v3 := if 1 ≤ pv then v2 else
      append_problema v2 ("Provas visuais insuficientes: " ++ pvs ++ " < 1")
    match pyGeInt pf 3 with
    | .error e => append_problema v3 ("Erro na validação: " ++ e.msg)
    | .ok b3 =>
      let v4 := if b3 then v3 else
        append_problema v3 ("Fontes de pesquisa insuficientes: " ++ pfs ++ " < 3")
      let v5 := if 5 ≤ ic then v4 else
        append_problema v4 ("Insights insuficientes: " ++ ics ++ " < 5")
      let criterios := contar_criterios dm pv b3 ic
      let suficiente := decide (3 ≤ criterios)
      let v6 := (v5.set "qualidade_suficiente" (.bool suficiente)).set
                  "score_qualidade" (.int (criterios * 20))
      if suficiente then v6 else extend_recomendacoes v6 recomendacoes_padrao

/-- ConsolidacaoFinal._validar_qualidade_dados (lines 167-247): the
initial validation dict is built before the try, and its
componentes_encontrados entry takes len of the componentes_disponiveis
item, so a missing key or unsized value there raises out of the
function (the entry point catches it); the rest of the body is the
guarded try. -/
def validar_qualidade_dados (dados_coletados : Val) : Except PyErr Val :=
  match dados_coletados with
  | .dict d =>
      match List.lookup "componentes_disponiveis" d with
      | Option.none => .error (.keyError "componentes_disponiveis")
      | some comp =>
          match pyLen comp with
          | .error e => .error e
          | .ok n =>
              let v0 := Val.dict
                [("qualidade_suficiente", .bool false),
                 ("componentes_encontrados", .int n),
                 ("drivers_mentais_count", .int 0),
                 ("provas_visuais_count", .int 0),
                 ("pesquisa_fontes", .int 0),
                 ("insights_count", .int 0),
                 ("problemas_identificados", .list []),
                 ("recomendacoes", .list [])]
              .ok (validar_qualidade_try d v0)
  | _ => .error .typeError

/-- The module-name to data-key mapping of
ConsolidacaoFinal._modulo_tem_dados_validos (lines 889-898). -/
def modulo_mapeamento (nome_modulo : String) : List String :=
  if nome_modulo = "pesquisa_web" then ["pesquisa_web_massiva", "pesquisa_web"]
  else if nome_modulo = "avatar" then ["avatar_ultra_detalhado", "avatar", "avatars"]
  else if nome_modulo = "concorrencia" then ["analise_concorrencia", "concorrencia"]
  else if nome_modulo = "drivers_mentais" then ["drivers_mentais_customizados", "drivers_mentais"]
  else if nome_modulo = "funil_vendas" then ["funil_vendas_otimizado", "funil_vendas"]
  else if nome_modulo = "metricas" then ["metricas", "metricas_qualidade"]
  else if nome_modulo = "insights" then ["insights_estrategicos", "insights_exclusivos", "insights"]
  else if nome_modulo = "plano_acao" then ["plano_acao_estrategico", "plano_acao"]
  else [nome_modulo]

/-- One key probe of _modulo_tem_dados_validos (lines 902-911): the key is
valid when present and truthy and either a dict whose rendering does not
contain "erro" (case-insensitively), a non-empty list, or a string longer
than 100 characters; other types fall through to the next key. -/
def chave_tem_dados (dados : Val) (chave : String) : Except PyErr Bool :=
  match pyIn (.str chave) dados with
  | .error e => .error e
  | .ok false => .ok false
  | .ok true =>
      match pyGetItem dados chave with
      | .error e => .error e
      | .ok dv =>
          if dv.truthy then
            match dv with
            | .dict _ => .ok (!strContains (pyStr dv).toLower "erro")
            | .list l => .ok (decide (0 < l.length))
            | .str s => .ok (decide (100 < s.length))
            | _ => .ok false
          else .ok false

/-- ConsolidacaoFinal._modulo_tem_dados_validos (lines 885-913): true when
any of the mapped keys carries valid data. -/
def modulo_tem_dados_validos (dados : Val) (nome_modulo : String) : Except PyErr Bool :=
  go dados (modulo_mapeamento nome_modulo)
where
  go (dados : Val) : List String → Except PyErr Bool
    | [] => .ok false
    | c :: cs =>
        match chave_tem_dados dados c with
        | .error e => .error e
        | .ok true => .ok true
        | .ok false => go dados cs

/-- The eight required modules of _validar_integridade_dados (lines
845-848). -/
def modulos_obrigatorios : List String :=
  ["pesquisa_web", "avatar", "concorrencia", "drivers_mentais",
   "funil_vendas", "metricas", "insights", "plano_acao"]

/-- The module loop of _validar_integridade_dados (lines 850-855):
returns the number found and the missing names, or the partial missing
list at the raise point. -/
def integridade_loop (dados : Val) : List String → Except (PyErr × List Val) (Int × List Val)
  | [] => .ok (0, [])
  | m :: ms =>
      match modulo_tem_dados_validos dados m with
      | .error e => .error (e, [])
      | .ok true =>
          match integridade_loop dados ms with
          | .error (e, f) => .error (e, f)
          | .ok (n, f) => .ok (n + 1, f)
      | .ok false =>
          match integridade_loop dados ms with
          | .error (e, f) => .error (e, .str m :: f)
          | .ok (n, f) => .ok (n, .str m :: f)

/-- The source-count block of _validar_integridade_dados (lines 862-865):
when a web-research key is present, total_fontes is len of
extracted_content of the first truthy of the two candidate values; the
.get on a truthy non-dict and the len of an unsized value both raise. -/
def integridade_fontes (d : List (String × Val)) : Except PyErr (Option Int) :=
  if ("pesquisa_web_massiva" ∈ d.map Prod.fst) ∨ ("pesquisa_web" ∈ d.map Prod.fst) then
    let web_data :=
      match (List.lookup "pesquisa_web_massiva" d).getD .none with
      | v => if v.truthy then v else (List.lookup "pesquisa_web" d).getD (.dict [])
    match pyGet web_data "extracted_content" (.list []) with
    | .error e => .error e
    | .ok ec =>
        match pyLen ec with
        | .error e => .error e
        | .ok n => .ok (some n)
  else .ok Option.none

/-- ConsolidacaoFinal._validar_integridade_dados (lines 831-883): counts
the required modules, scores modulos/8*100 (an exact IEEE-754 value, kept
as an exact rational), counts the research sources, and declares the data
sufficient iff the score is at least 75 and at least 5 sources were
counted.  The body is a catch-all try over the initial dict, so the
function never raises; a raise inside leaves the fields assigned so far. -/
def validar_integridade_dados (dados : Val) : Val :=
  let v0 := Val.dict
    [("dados_suficientes", .bool false),
     ("score_qualidade", .int 0),
     ("total_fontes", .int 0),
     ("modulos_completos", .int 0),
     ("modulos_faltantes", .list []),
     ("recomendacoes", .list [])]
  match integridade_loop dados modulos_obrigatorios with
  | .error (_, f) => v0.set "modulos_faltantes" (.list f)
  | .ok (encontrados, faltantes) =>
      let score : Rat := (encontrados : Rat) / 8 * 100
      let v1 := ((v0.set "modulos_faltantes" (.list faltantes)).set
                  "modulos_completos" (.int encontrados)).set
                  "score_qualidade" (.float score)
      match dados with
      | .dict d =>
          match integridade_fontes d with
          | .error _ => v1
          | .ok fontesOpt =>
              let v2 := match fontesOpt with
                        | some n => v1.set "total_fontes" (.int n)
                        | Option.none => v1
              let fontes : Int := match fontesOpt with
                                  | some n => n
                                  | Option.none => 0
              let suficientes := decide ((75 : Rat) ≤ score) && decide ((5 : Int) ≤ fontes)
              let v3 := v2.set "dados_suficientes" (.bool suficientes)
              let v4 := if suficientes then v3 else
                extend_recomendacoes v3 [.str "Executar coleta adicional de dados"]
              if fontes < 10 then
                extend_recomendacoes v4 [.str "Ampliar base de fontes de pesquisa"]
              else v4
      | _ =>
          let suficientes := decide ((75 : Rat) ≤ score) && decide ((0 : Int) ≥ 5)
          let v3 := v1.set "dados_suficientes" (.bool suficientes)
          let v4 := if suficientes then v3 else
            extend_recomendacoes v3 [.str "Executar coleta adicional de dados"]
          extend_recomendacoes v4 [.str "Ampliar base de fontes de pesquisa"]

end Consolidacao

namespace Consolidacao

/-- Try body of ConsolidacaoFinal._gerar_resumo_executivo (lines 367-404),
in source evaluation order; any raise is caught by the wrapper. -/
def gerar_resumo_executivo_try (dc val : Val) : Except PyErr Val :=
  match pyGet dc "projeto_dados" (.dict []) with
  | .error e => .error e
  | .ok projeto_dados =>
  match pyGet projeto_dados "segmento" (.str "Não informado") with
  | .error e => .error e
  | .ok segmento =>
  match pyGet projeto_dados "produto" (.str "Não informado") with
  | .error e => .error e
  | .ok produto =>
  match pyGet val "score_qualidade" (.int 0) with
  | .error e => .error e
  | .ok qual =>
  match pyGetItem dc "componentes_disponiveis" with
  | .error e => .error e
  | .ok comp =>
  match pyLen comp with
  | .error e => .error e
  | .ok ncomp =>
  let r0 := Val.dict
    [("segmento_analisado", segmento), ("produto_servico", produto),
     ("qualidade_analise", qual), ("componentes_gerados", .int ncomp),
     ("principais_descobertas", .list []), ("recomendacoes_imediatas", .list []),
     ("proximos_passos", .list [])]
  match pyIn (.str "insights_exclusivos") dc with
  | .error e => .error e
  | .ok bIns =>
  match (if bIns then
            match pyGetItem dc "insights_exclusivos" with
            | .error e => Except.error e
            | .ok insights =>
                match insights with
                | .list l => Except.ok (r0.set "principais_descobertas" (.list (l.take 5)))
                | _ => Except.ok r0
         else Except.ok r0 : Except PyErr Val) with
  | .error e => .error e
  | .ok r1 =>
  match pyIn (.str "drivers_mentais_customizados") dc with
  | .error e => .error e
  | .ok bDrv =>
  match (if bDrv then
            match pyGetItem val "drivers_mentais_count" with
            | .error e => Except.error e
            | .ok dmc =>
                let dmcs := pyStr dmc
                Except.ok (match r1.get? "recomendacoes_imediatas" with
                     | some (.list l) => r1.set "recomendacoes_imediatas"
                         (.list (l ++ [.str ("Implemente os " ++ dmcs ++ " drivers mentais identificados")]))
                     | _ => r1)
         else Except.ok r1 : Except PyErr Val) with
  | .error e => .error e
  | .ok r2 =>
  match pyIn (.str "provas_visuais_sugeridas") dc with
  | .error e => .error e
  | .ok bPv =>
  match (if bPv then
            match pyGetItem val "provas_visuais_count" with
            | .error e => Except.error e
            | .ok pvc =>
                let pvcs := pyStr pvc
                Except.ok (match r2.get? "recomendacoes_imediatas" with
                     | some (.list l) => r2.set "recomendacoes_imediatas"
                         (.list (l ++ [.str ("Desenvolva as " ++ pvcs ++ " provas visuais sugeridas")]))
                     | _ => r2)
         else Except.ok r2 : Except PyErr Val) with
  | .error e => .error e
  | .ok r3 =>
  let segs := pyStr segmento
  .ok (r3.set "proximos_passos"
        (.list [.str ("Implemente estratégias específicas para " ++ segs),
                .str "Execute plano de ação detalhado",
                .str "Monitore métricas de performance",
                .str "Ajuste estratégias baseado em resultados"]))

/-- ConsolidacaoFinal._gerar_resumo_executivo (lines 364-411): the try
body, with a catch-all handler returning the static error dict. -/
def gerar_resumo_executivo (dc val : Val) : Val :=
  match gerar_resumo_executivo_try dc val with
  | .ok r => r
  | .error _ => .dict
      [("erro", .str "Falha na geração do resumo executivo"),
       ("dados_disponiveis", .str "Consulte arquivos intermediários para análise manual")]

/-- The six expected components of _gerar_diagnostico_final (lines
427-430). -/
def componentes_esperados : List String :=
  ["pesquisa_web_massiva", "avatar_ultra_detalhado", "drivers_mentais_customizados",
   "provas_visuais_sugeridas", "sistema_anti_objecao", "pre_pitch_invisivel"]

/-- The failed-components loop of _gerar_diagnostico_final (lines
432-434): the names not contained in the componentes_disponiveis value, in
order; a membership raise aborts the whole diagnosis (the handler discards
the partial dict). -/
def diag_falharam (comps : Val) : List String → Except PyErr (List Val)
  | [] => .ok []
  | c :: cs =>
      match pyIn (.str c) comps with
      | .error e => .error e
      | .ok b =>
          match diag_falharam comps cs with
          | .error e => .error e
          | .ok rest => .ok (if b then rest else .str c :: rest)

/-- Try body of ConsolidacaoFinal._gerar_diagnostico_final (lines
416-444), in source evaluation order. -/
def gerar_diagnostico_final_try (dc val : Val) : Except PyErr Val :=
  match pyGetItem val "qualidade_suficiente" with
  | .error e => .error e
  | .ok suficiente =>
  match pyGetItem dc "componentes_disponiveis" with
  | .error e => .error e
  | .ok comps =>
  match pyGet val "score_qualidade" (.int 0) with
  | .error e => .error e
  | .ok score =>
  let d0 := Val.dict
    [("status_geral", .str (if suficiente.truthy then "SUCESSO_PARCIAL" else "DADOS_PRESERVADOS")),
     ("componentes_funcionaram", comps),
     ("componentes_falharam", .list []),
     ("qualidade_geral", score),
     ("dados_preservados", .bool true),
     ("recuperacao_possivel", .bool true)]
  match diag_falharam comps componentes_esperados with
  | .error e => .error e
  | .ok falharam =>
  let d1 := d0.set "componentes_falharam" (.list falharam)
  if suficiente.truthy then
    .ok ((d1.set "avaliacao" (.str "Análise bem-sucedida com qualidade adequada")).set
          "recomendacao" (.str "Prosseguir com implementação das estratégias"))
  else
    .ok ((d1.set "avaliacao" (.str "Análise parcial mas dados preservados")).set
          "recomendacao" (.str "Configure APIs e execute nova análise para resultados completos"))

/-- ConsolidacaoFinal._gerar_diagnostico_final (lines 413-452): the try
body with a catch-all handler returning the static error dict. -/
def gerar_diagnostico_final (dc val : Val) : Val :=
  match gerar_diagnostico_final_try dc val with
  | .ok r => r
  | .error e => .dict
      [("status_geral", .str "ERRO_MAS_DADOS_SALVOS"),
       ("erro", .str e.msg),
       ("dados_preservados", .bool true)]

/-- The nine principal modules copied by _gerar_relatorio_completo (lines
267-272). -/
def componentes_principais : List String :=
  ["projeto_dados", "pesquisa_web_massiva", "avatar_ultra_detalhado",
   "drivers_mentais_customizados", "provas_visuais_sugeridas",
   "sistema_anti_objecao", "pre_pitch_invisivel", "predicoes_futuro_completas",
   "insights_exclusivos"]

/-- The copy loop of _gerar_relatorio_completo (lines 274-278): each
module is copied from the collected dict when present there, else from its
nested dados_pipeline value when present there, else left absent. -/
def completo_loop (dc : Val) : Val → List String → Except PyErr Val
  | r, [] => .ok r
  | r, c :: cs =>
      match pyIn (.str c) dc with
      | .error e => .error e
      | .ok true =>
          match pyGetItem dc c with
          | .error e => .error e
          | .ok w => completo_loop dc (r.set c w) cs
      | .ok false =>
          match pyGet dc "dados_pipeline" (.dict []) with
          | .error e => .error e
          | .ok dp =>
              match pyIn (.str c) dp with
              | .error e => .error e
              | .ok true =>
                  match pyGetItem dc "dados_pipeline" with
                  | .error e => .error e
                  | .ok dp2 =>
                      match pyGetItem dp2 c with
                      | .error e => .error e
                      | .ok w => completo_loop dc (r.set c w) cs
              | .ok false => completo_loop dc r cs

/-- Try body of ConsolidacaoFinal._gerar_relatorio_completo (lines
257-286): the header dict (whose score entry subscripts the validation
dict and can raise KeyError), the module copy loop, then the executive
summary and final diagnosis. -/
def gerar_relatorio_completo_core (env : Env) (dc : Val) (session_id : String) (val : Val) :
    Except PyErr Val :=
  match pyGetItem val "score_qualidade" with
  | .error e => .error e
  | .ok score =>
      let r0 := Val.dict
        [("tipo", .str "relatorio_completo"), ("session_id", .str session_id),
         ("timestamp", .str env.now_iso), ("qualidade_validada", .bool true),
         ("score_qualidade", score)]
      match completo_loop dc r0 componentes_principais with
      | .error e => .error e
      | .ok r1 =>
          let r2 := r1.set "resumo_executivo" (gerar_resumo_executivo dc val)
          .ok (r2.set "diagnostico_final" (gerar_diagnostico_final dc val))

/-- The intermediate-files block of the minimal report (lines 321-326). -/
def arquivos_intermediarios_block (session_id : String) (arq : Val) (n : Int) : Val :=
  Val.dict
    [("localizacao", .str ("relatorios_intermediarios/" ++ session_id ++ "/")),
     ("arquivos_disponiveis", arq),
     ("total_arquivos", .int n),
     ("instrucoes_acesso", .str "Acesse os arquivos diretamente no diretório para análise manual")]

/-- The recovered-components loop of the minimal report (lines 329-332):
for each entry of componentes_disponiveis, if it is a key of the collected
dict its value is copied; membership of an unhashable entry (a list or a
dict) raises, aborting minimal assembly.  A membership hit in the modelled
string-keyed dict implies the entry is a string. -/
def minimo_recuperados (dc : Val) : List Val → Except PyErr (List (String × Val))
  | [] => .ok []
  | c :: cs =>
      match pyIn c dc with
      | .error e => .error e
      | .ok true =>
          match c with
          | .str s =>
              match pyGetItem dc s with
              | .error e => .error e
              | .ok w =>
                  match minimo_recuperados dc cs with
                  | .error e => .error e
                  | .ok rest => .ok ((s, w) :: rest)
          | _ => minimo_recuperados dc cs
      | .ok false => minimo_recuperados dc cs

end Consolidacao

namespace Consolidacao

/-- The projeto_dados block of the minimal report (lines 312-315): copy
projeto_dados from the collected dict when present, else from the nested
dados_pipeline value when that key is present. -/
def minimo_projeto (dc r0 : Val) : Except PyErr Val :=
  match pyIn (.str "projeto_dados") dc with
  | .error e => .error e
  | .ok bPd =>
      if bPd then
        match pyGetItem dc "projeto_dados" with
        | .error e => .error e
        | .ok w => .ok (r0.set "projeto_dados" w)
      else
        match pyIn (.str "dados_pipeline") dc with
        | .error e => .error e
        | .ok true =>
            match pyGetItem dc "dados_pipeline" with
            | .error e => .error e
            | .ok dp =>
                match pyGet dp "projeto_dados" (.dict []) with
                | .error e => .error e
                | .ok w => .ok (r0.set "projeto_dados" w)
        | .ok false => .ok r0

/-- Try body of ConsolidacaoFinal._gerar_relatorio_minimo (lines 301-357),
continued: header, projeto_dados block, generated components, file block,
recovered components, problem diagnosis and preservation summary, in
source evaluation order. -/
def gerar_relatorio_minimo_core (env : Env) (dc : Val) (session_id : String) (val : Val) :
    Except PyErr Val :=
  match pyGet val "score_qualidade" (.int 0) with
  | .error e => .error e
  | .ok score =>
  let r0 := Val.dict
    [("tipo", .str "relatorio_minimo"), ("session_id", .str session_id),
     ("timestamp", .str env.now_iso), ("status", .str "parcial_mas_preservado"),
     ("qualidade_limitada", .bool true), ("score_qualidade", score)]
  match minimo_projeto dc r0 with
  | .error e => .error e
  | .ok r1 =>
  match pyGetItem dc "componentes_disponiveis" with
  | .error e => .error e
  | .ok comps =>
  let r2 := r1.set "componentes_gerados" comps
  match pyGetItem dc "arquivos_encontrados" with
  | .error e => .error e
  | .ok arq =>
  match pyLen arq with
  | .error e => .error e
  | .ok narq =>
  let r3 := r2.set "arquivos_intermediarios" (arquivos_intermediarios_block session_id arq narq)
  match pyGetItem dc "componentes_disponiveis" with
  | .error e => .error e
  | .ok comps2 =>
  match pyIter comps2 with
  | .error e => .error e
  | .ok items =>
  match minimo_recuperados dc items with
  | .error e => .error e
  | .ok recuperados =>
  let r4 := r3.set "dados_recuperados" (.dict recuperados)
  match pyGet val "problemas_identificados" (.list []) with
  | .error e => .error e
  | .ok problemas =>
  match pyGet val "recomendacoes" (.list []) with
  | .error e => .error e
  | .ok recs =>
  let r5 := r4.set "diagnostico_problemas" (Val.dict
    [("problemas_identificados", problemas),
     ("recomendacoes", recs),
     ("proximos_passos", .list
        [.str "Configure APIs faltantes para análise completa",
         .str "Execute nova análise com configuração completa",
         .str "Analise manualmente os arquivos intermediários salvos",
         .str "Considere executar componentes individuais para debug"])])
  match pyGetItem dc "componentes_disponiveis" with
  | .error e => .error e
  | .ok comps3 =>
  match pyLen comps3 with
  | .error e => .error e
  | .ok ncomp =>
  match pyGetItem dc "arquivos_encontrados" with
  | .error e => .error e
  | .ok arq2 =>
  match pyLen arq2 with
  | .error e => .error e
  | .ok narq2 =>
  .ok (r5.set "resumo_preservacao" (Val.dict
    [("dados_perdidos", .str "NENHUM - Todos os dados intermediários foram salvos"),
     ("componentes_executados", .int ncomp),
     ("arquivos_salvos", .int narq2),
     ("recuperacao_possivel", .str "SIM - Todos os dados podem ser recuperados"),
     ("valor_preservado", .str "ALTO - Análise pode ser completada manualmente")]))

/-- ConsolidacaoFinal._fallback_absoluto (lines 677-721): builds the
emergency report (including the intermediate-file listing, which never
raises) and saves it; when that save raises, the final handler returns the
critical-emergency literal dict.  Nothing in the handler itself can raise,
so the function is total: the absolute fallback never fails. -/
def fallback_absoluto (env : Env) (session_id erro : String) : Val :=
  let rel := Val.dict
    [("tipo", .str "relatorio_emergencia"), ("session_id", .str session_id),
     ("timestamp", .str env.now_iso), ("status", .str "ERRO_MAS_DADOS_PRESERVADOS"),
     ("erro_consolidacao", .str erro),
     ("garantias", .dict
        [("dados_perdidos", .str "NENHUM"), ("arquivos_salvos", .str "SIM"),
         ("recuperacao_possivel", .str "SIM"),
         ("localizacao_dados", .str ("relatorios_intermediarios/" ++ session_id ++ "/"))]),
     ("instrucoes_recuperacao", .list
        [.str ("1. Acesse o diretório: relatorios_intermediarios/" ++ session_id ++ "/"),
         .str "2. Analise os arquivos JSON salvos em cada categoria",
         .str "3. Use os dados para completar análise manualmente",
         .str "4. Execute nova análise com APIs configuradas"]),
     ("arquivos_disponiveis", listar_arquivos_intermediarios env session_id),
     ("valor_preservado", .str "ALTO - Todos os dados intermediários estão disponíveis")]
  match env.salvar_etapa "relatorio_emergencia" rel "analise_completa" with
  | .ok _ => rel
  | .error e2 =>
      Val.dict
        [("tipo", .str "emergencia_critica"), ("session_id", .str session_id),
         ("timestamp", .str env.now_iso), ("erro_original", .str erro),
         ("erro_fallback", .str e2.msg),
         ("status", .str "CRITICO_MAS_SESSAO_PRESERVADA"),
         ("instrucao", .str ("Verifique manualmente: relatorios_intermediarios/" ++ session_id ++ "/"))]

/-- ConsolidacaoFinal._gerar_relatorio_minimo (lines 293-362): the try body
with a handler that records the error (a raise of the recorder itself
escapes, to be caught by the entry point) and falls back to the absolute
fallback. -/
def gerar_relatorio_minimo (env : Env) (dc : Val) (session_id : String) (val : Val) :
    Except PyErr Val :=
  match gerar_relatorio_minimo_core env dc session_id val with
  | .ok r => .ok r
  | .error e =>
      match env.salvar_erro "relatorio_minimo" with
      | .ok _ => .ok (fallback_absoluto env session_id e.msg)
      | .error e2 => .error e2

/-- ConsolidacaoFinal._gerar_relatorio_completo (lines 249-291): the try
body with a handler that records the error (a raise of the recorder itself
escapes) and demotes to minimal-report construction over the same
collected data. -/
def gerar_relatorio_completo (env : Env) (dc : Val) (session_id : String) (val : Val) :
    Except PyErr Val :=
  match gerar_relatorio_completo_core env dc session_id val with
  | .ok r => .ok r
  | .error _ =>
      match env.salvar_erro "relatorio_completo" with
      | .ok _ => gerar_relatorio_minimo env dc session_id val
      | .error e2 => .error e2

end Consolidacao

namespace Consolidacao

/-- Python format(x, ".1f") as used by the markdown and html renderers:
defined for numbers (bool included), raising on strings, None, lists and
dicts.  The rendered digits of a proper float are not inspected by any
claim; integer inputs render exactly as Python does. -/
def fmtFloat1 : Val → Except PyErr String
  | .int n => .ok (toString n ++ ".0")
  | .bool b => .ok (if b then "1.0" else "0.0")
  | .float q => .ok (toString q)
  | _ => .error .valueError

/-- The per-driver lines of the markdown renderer (lines 524-527),
numbered from 1; each .get on a non-dict driver raises. -/
def md_drivers_lines (i : Nat) : List Val → Except PyErr String
  | [] => .ok ""
  | dr :: rest =>
      match pyGet dr "nome" (.str "N/A") with
      | .error e => .error e
      | .ok nome =>
      match pyGet dr "gatilho_central" (.str "N/A") with
      | .error e => .error e
      | .ok gat =>
      match pyGet dr "roteiro_ativacao" (.dict []) with
      | .error e => .error e
      | .ok rot =>
      match pyGet rot "historia_analogia" (.str "N/A") with
      | .error e => .error e
      | .ok hist =>
      match md_drivers_lines (i + 1) rest with
      | .error e => .error e
      | .ok tail =>
          .ok ("#### Driver " ++ toString i ++ ": " ++ pyStr nome ++ "\n" ++
               "**Gatilho:** " ++ pyStr gat ++ "  \n" ++
               "**História:** " ++ pyStr hist ++ "  \n\n" ++ tail)

/-- The numbered insight lines of the markdown renderer (lines 532-534). -/
def md_insights_lines (i : Nat) : List Val → String
  | [] => ""
  | x :: rest => toString i ++ ". " ++ pyStr x ++ "\n" ++ md_insights_lines (i + 1) rest

/-- ConsolidacaoFinal._generate_markdown_report (lines 498-545): header,
optional executive-summary block (whose quality figure is formatted with
.1f and raises on a non-numeric value), optional drivers block, optional
insights block, optional diagnosis block.  Any raise is caught by the
per-format loop of the renderer. -/
def generate_markdown_report (relatorio : Val) (session_id : String) : Except PyErr String :=
  match pyGet relatorio "timestamp" (.str "N/A") with
  | .error e => .error e
  | .ok ts =>
  match pyGet relatorio "tipo" (.str "N/A") with
  | .error e => .error e
  | .ok tp =>
  let header := "# Relatório de Análise Ultra-Detalhada\n## ARQV30 Enhanced v2.0\n\n" ++
    "**Sessão:** " ++ session_id ++ "  \n" ++
    "**Data:** " ++ pyStr ts ++ "  \n" ++
    "**Tipo:** " ++ pyStr tp ++ "  \n\n### 📊 Resumo Executivo\n\n"
  match pyIn (.str "resumo_executivo") relatorio with
  | .error e => .error e
  | .ok bRes =>
  match (if bRes then
            match pyGetItem relatorio "resumo_executivo" with
            | .error e => Except.error e
            | .ok resumo =>
            match pyGet resumo "segmento_analisado" (.str "N/A") with
            | .error e => Except.error e
            | .ok sa =>
            match pyGet resumo "produto_servico" (.str "N/A") with
            | .error e => Except.error e
            | .ok ps =>
            match pyGet resumo "qualidade_analise" (.int 0) with
            | .error e => Except.error e
            | .ok qa =>
            match fmtFloat1 qa with
            | .error e => Except.error e
            | .ok qs =>
            match pyGet resumo "componentes_gerados" (.int 0) with
            | .error e => Except.error e
            | .ok cg =>
                Except.ok ("**Segmento:** " ++ pyStr sa ++ "  \n" ++
                   "**Produto/Serviço:** " ++ pyStr ps ++ "  \n" ++
                   "**Qualidade:** " ++ qs ++ "%  \n" ++
                   "**Componentes:** " ++ pyStr cg ++ "  \n\n")
         else Except.ok "" : Except PyErr String) with
  | .error e => .error e
  | .ok resumoBlock =>
  match pyIn (.str "drivers_mentais_customizados") relatorio with
  | .error e => .error e
  | .ok bDrv =>
  match (if bDrv then
            match pyGetItem relatorio "drivers_mentais_customizados" with
            | .error e => Except.error e
            | .ok drivers =>
                match drivers with
                | .dict dd =>
                    match List.lookup "drivers_customizados" dd with
                    | some dl =>
                        match pyIter dl with
                        | .error e => Except.error e
                        | .ok items =>
                            match md_drivers_lines 1 items with
                            | .error e => Except.error e
                            | .ok lines =>
                                Except.ok ("### 🧠 Drivers Mentais Customizados\n\n" ++ lines)
                    | Option.none => Except.ok "### 🧠 Drivers Mentais Customizados\n\n"
                | _ => Except.ok "### 🧠 Drivers Mentais Customizados\n\n"
         else Except.ok "" : Except PyErr String) with
  | .error e => .error e
  | .ok driversBlock =>
  match pyIn (.str "insights_exclusivos") relatorio with
  | .error e => .error e
  | .ok bIns =>
  match (if bIns then
            match pyGetItem relatorio "insights_exclusivos" with
            | .error e => Except.error e
            | .ok insights =>
                match insights with
                | .list l => Except.ok ("### 💡 Insights Exclusivos\n\n" ++ md_insights_lines 1 l ++ "\n")
                | _ => Except.ok ("### 💡 Insights Exclusivos\n\n" ++ "\n")
         else Except.ok "" : Except PyErr String) with
  | .error e => .error e
  | .ok insightsBlock =>
  match pyIn (.str "diagnostico_final") relatorio with
  | .error e => .error e
  | .ok bDiag =>
  match (if bDiag then
            match pyGetItem relatorio "diagnostico_final" with
            | .error e => Except.error e
            | .ok diag =>
            match pyGet diag "status_geral" (.str "N/A") with
            | .error e => Except.error e
            | .ok sg =>
            match pyGet diag "avaliacao" (.str "N/A") with
            | .error e => Except.error e
            | .ok av =>
            match pyGet diag "recomendacao" (.str "N/A") with
            | .error e => Except.error e
            | .ok rc =>
                Except.ok ("### 🎯 Diagnóstico Final\n\n" ++
                   "**Status:** " ++ pyStr sg ++ "  \n" ++
                   "**Avaliação:** " ++ pyStr av ++ "  \n" ++
                   "**Recomendação:** " ++ pyStr rc ++ "  \n\n")
         else Except.ok "" : Except PyErr String) with
  | .error e => .error e
  | .ok diagBlock =>
  .ok (header ++ resumoBlock ++ driversBlock ++ insightsBlock ++ diagBlock)

/-- ConsolidacaoFinal._generate_html_report (lines 547-600): fixed header
and style (literal braces written as escapes), optional summary block
(with the same .1f formatting hazard), optional insights block, fixed
footer. -/
def generate_html_report (relatorio : Val) (session_id : String) : Except PyErr String :=
  match pyGet relatorio "timestamp" (.str "N/A") with
  | .error e => .error e
  | .ok ts =>
  match pyGet relatorio "tipo" (.str "N/A") with
  | .error e => .error e
  | .ok tp =>
  let header := "<!DOCTYPE html>\n<html lang=\"pt-BR\">\n<head>\n" ++
    "<meta charset=\"UTF-8\">\n<title>Relatório ARQV30 - " ++ session_id ++ "</title>\n" ++
    "<style>body \x7b font-family: Arial, sans-serif; \x7d</style>\n</head>\n<body>\n" ++
    "<div class=\"container\">\n<h1>📊 Relatório de Análise Ultra-Detalhada</h1>\n" ++
    "<p><strong>Sessão:</strong> " ++ session_id ++ "</p>\n" ++
    "<p><strong>Data:</strong> " ++ pyStr ts ++ "</p>\n" ++
    "<p><strong>Tipo:</strong> " ++ pyStr tp ++ "</p>\n"
  match pyIn (.str "resumo_executivo") relatorio with
  | .error e => .error e
  | .ok bRes =>
  match (if bRes then
            match pyGetItem relatorio "resumo_executivo" with
            | .error e => Except.error e
            | .ok resumo =>
            match pyGet resumo "segmento_analisado" (.str "N/A") with
            | .error e => Except.error e
            | .ok sa =>
            match pyGet resumo "produto_servico" (.str "N/A") with
            | .error e => Except.error e
            | .ok ps =>
            match pyGet resumo "qualidade_analise" (.int 0) with
            | .error e => Except.error e
            | .ok qa =>
            match fmtFloat1 qa with
            | .error e => Except.error e
            | .ok qs =>
            match pyGet resumo "componentes_gerados" (.int 0) with
            | .error e => Except.error e
            | .ok cg =>
                Except.ok ("<h2>📋 Resumo Executivo</h2>\n<div class=\"metric\">\n" ++
                   "<strong>Segmento:</strong> " ++ pyStr sa ++ "<br>\n" ++
                   "<strong>Produto/Serviço:</strong> " ++ pyStr ps ++ "<br>\n" ++
                   "<strong>Qualidade:</strong> " ++ qs ++ "%<br>\n" ++
                   "<strong>Componentes:</strong> " ++ pyStr cg ++ "\n</div>\n")
         else Except.ok "" : Except PyErr String) with
  | .error e => .error e
  | .ok resumoBlock =>
  match pyIn (.str "insights_exclusivos") relatorio with
  | .error e => .error e
  | .ok bIns =>
  match (if bIns then
            match pyGetItem relatorio "insights_exclusivos" with
            | .error e => Except.error e
            | .ok insights =>
                match insights with
                | .list l => Except.ok ("<h2>💡 Insights Exclusivos</h2>" ++
                    String.join (l.map (fun x => "<div class=\"insight\">" ++ pyStr x ++ "</div>")))
                | _ => Except.ok "<h2>💡 Insights Exclusivos</h2>"
         else Except.ok "" : Except PyErr String) with
  | .error e => .error e
  | .ok insightsBlock =>
  .ok (header ++ resumoBlock ++ insightsBlock ++ "\n</div>\n</body>\n</html>")

/-- ConsolidacaoFinal._generate_json_report (lines 602-612): json.dumps of
the report.  Every modelled value is JSON-serializable, so the except
branch of the source (returning an error-JSON literal) is unreachable in
the model and the generator always succeeds. -/
def generate_json_report (relatorio : Val) (_session_id : String) : Except PyErr String :=
  .ok (pyJsonDumps relatorio)

/-- ConsolidacaoFinal._generate_minimal_report (lines 614-644): the plain
text summary; iterating a non-iterable componentes_gerados value or
calling .get on a non-dict block raises, caught by the per-format loop. -/
def generate_minimal_report (relatorio : Val) (session_id : String) : Except PyErr String :=
  match pyGet relatorio "timestamp" (.str "N/A") with
  | .error e => .error e
  | .ok ts =>
  match pyGet relatorio "status" (.str "N/A") with
  | .error e => .error e
  | .ok st =>
  match pyGet relatorio "componentes_gerados" (.list []) with
  | .error e => .error e
  | .ok cg =>
  match pyIter cg with
  | .error e => .error e
  | .ok items =>
  let comps := String.intercalate "\n" (items.map (fun c => "✅ " ++ pyStr c))
  match pyGet relatorio "arquivos_intermediarios" (.dict []) with
  | .error e => .error e
  | .ok ai =>
  match pyGet ai "localizacao" (.str "N/A") with
  | .error e => .error e
  | .ok loc =>
  match pyGet relatorio "arquivos_intermediarios" (.dict []) with
  | .error e => .error e
  | .ok ai2 =>
  match pyGet ai2 "total_arquivos" (.int 0) with
  | .error e => .error e
  | .ok tot =>
  match pyGet relatorio "diagnostico_final" (.dict []) with
  | .error e => .error e
  | .ok df =>
  match pyGet df "avaliacao" (.str "N/A") with
  | .error e => .error e
  | .ok av =>
  match pyGet relatorio "diagnostico_final" (.dict []) with
  | .error e => .error e
  | .ok df2 =>
  match pyGet df2 "recomendacao" (.str "N/A") with
  | .error e => .error e
  | .ok rc =>
  .ok ("RELATÓRIO MÍNIMO - ARQV30 Enhanced v2.0\n========================================\n\n" ++
       "Sessão: " ++ session_id ++ "\nData: " ++ pyStr ts ++ "\nStatus: " ++ pyStr st ++ "\n\n" ++
       "COMPONENTES GERADOS:\n" ++ comps ++ "\n\n" ++
       "ARQUIVOS SALVOS:\nLocalização: " ++ pyStr loc ++ "\nTotal: " ++ pyStr tot ++ " arquivos\n\n" ++
       "DIAGNÓSTICO:\n" ++ pyStr av ++ "\n\nRECOMENDAÇÃO:\n" ++ pyStr rc ++ "\n\n" ++
       "GARANTIA:\n✅ NENHUM DADO FOI PERDIDO\n✅ Todos os dados intermediários foram salvos\n" ++
       "✅ Análise pode ser completada manualmente\n✅ Arquivos disponíveis para recuperação\n")

/-- ConsolidacaoFinal._salvar_formato (lines 646-675): writes the content
under the deterministic session-and-timestamp file name; a write failure
is caught and reported inside the returned string, so saving never
raises. -/
def salvar_formato (env : Env) (conteudo formato session_id : String) : String :=
  let extensao := if formato = "markdown" then ".md"
    else if formato = "html" then ".html"
    else if formato = "json" then ".json"
    else ".txt"
  let filename := "relatorio_final_" ++ (session_id.take 8) ++ "_" ++ env.now_stamp ++ extensao
  let filepath := "relatorios_intermediarios/analise_completa/" ++ filename
  match env.write_file filepath conteudo with
  | .ok _ => filepath
  | .error e => "Erro ao salvar: " ++ e.msg

/-- The template_engines registry of ConsolidacaoFinal.__init__ (lines
33-38), in its iteration order. -/
def template_engines : List (String × (Val → String → Except PyErr String)) :=
  [("markdown", generate_markdown_report), ("html", generate_html_report),
   ("json", generate_json_report), ("minimal", generate_minimal_report)]

/-- One iteration of the per-format loop of _gerar_multiplos_formatos
(lines 484-494): the generator runs under its own handler; a failing or
empty format is omitted and the loop continues, so rendering never raises
and partial success is a valid outcome. -/
def formato_step (env : Env) (relatorio : Val) (session_id : String)
    (acc : List (String × Val)) (p : String × (Val → String → Except PyErr String)) :
    List (String × Val) :=
  match p.2 relatorio session_id with
  | .error _ => acc
  | .ok conteudo =>
      if conteudo ≠ "" then
        acc ++ [(p.1, .str (salvar_formato env conteudo p.1 session_id))]
      else acc

/-- ConsolidacaoFinal._gerar_multiplos_formatos (lines 479-496), the loop
over the registry folding formato_step. -/
def gerar_multiplos_formatos (env : Env) (relatorio : Val) (session_id : String) : Val :=
  .dict (template_engines.foldl (formato_step env relatorio session_id) [])

/-- The report-type dispatch of consolidar_analise_completa (lines
68-73): minimal assembly when force_minimal is set or the validated
quality flag is falsy, full assembly otherwise. -/
def escolher_relatorio (env : Env) (dc : Val) (session_id : String) (val : Val)
    (force_minimal : Bool) (suf : Val) : Except PyErr Val :=
  if force_minimal || !suf.truthy then gerar_relatorio_minimo env dc session_id val
  else gerar_relatorio_completo env dc session_id val

/-- Try body of ConsolidacaoFinal.consolidar_analise_completa (lines
50-121): record the start, collect, validate, persist the validation,
branch on force_minimal or insufficient quality into minimal or full
assembly, run the analyses-data integration, attach the consolidation
metadata, persist the final report and render the formats. -/
def consolidar_core (env : Env) (dados_pipeline : Val) (session_id : String)
    (force_minimal : Bool) : Except PyErr Val :=
  match env.salvar_etapa "consolidacao_iniciada"
          (.dict [("session_id", .str session_id), ("timestamp", .str env.now_stamp),
                  ("force_minimal", .bool force_minimal)]) "analise_completa" with
  | .error e => .error e
  | .ok _ =>
  match coletar_todos_dados env dados_pipeline session_id with
  | .error e => .error e
  | .ok dc =>
  match validar_qualidade_dados dc with
  | .error e => .error e
  | .ok val =>
  match env.salvar_etapa "validacao_qualidade" val "analise_completa" with
  | .error e => .error e
  | .ok _ =>
  match pyGetItem val "qualidade_suficiente" with
  | .error e => .error e
  | .ok suf =>
  match escolher_relatorio env dc session_id val force_minimal suf with
  | .error e => .error e
  | .ok rel =>
  match env.ensure_modules_exist with
  | .error e => .error e
  | .ok _ =>
  match env.integrate_to_final_analysis session_id
          (.dict [("session_id", .str session_id), ("timestamp", .str env.now_iso),
                  ("consolidation_status", .str "SUCCESS")]) with
  | .error e => .error e
  | .ok _ =>
  let meta := Val.dict
    [("session_id", .str session_id),
     ("timestamp_consolidacao", .str env.now_iso),
     ("qualidade_dados", val),
     ("tipo_relatorio", .str (if force_minimal || !suf.truthy then "minimo" else "completo")),
     ("arquivos_intermediarios", listar_arquivos_intermediarios env session_id),
     ("garantia_dados", .str "Todos os dados intermediários preservados"),
     ("acesso_direto", .str ("relatorios_intermediarios/" ++ session_id ++ "/"))]
  let rel1 := rel.set "metadata_consolidacao" meta
  match env.salvar_etapa "relatorio_final_consolidado" rel1 "analise_completa" with
  | .error e => .error e
  | .ok _ =>
  let formatos := gerar_multiplos_formatos env rel1 session_id
  .ok (Val.dict
    [("relatorio_principal", rel1), ("formatos_disponiveis", formatos),
     ("status", .str "consolidado_com_sucesso"), ("qualidade", val),
     ("session_id", .str session_id)])

/-- ConsolidacaoFinal.consolidar_analise_completa (lines 42-128): the
public entry point; any raise of the try body is recorded (a raise of the
recorder itself escapes, the one way any exception can leave this
function) and answered by the absolute fallback, which never fails. -/
def consolidar_analise_completa (env : Env) (dados_pipeline : Val) (session_id : String)
    (force_minimal : Bool) : Except PyErr Val :=
  match consolidar_core env dados_pipeline session_id force_minimal with
  | .ok v => .ok v
  | .error e =>
      match env.salvar_erro "consolidacao_final" with
      | .ok _ => .ok (fallback_absoluto env session_id e.msg)
      | .error e2 => .error e2

end Consolidacao

namespace Consolidacao

namespace CRGv3

/-- ComprehensiveReportGeneratorV3.__init__ (line 26): the minimum page
target. -/
def min_pages : Int := 25

/-- ComprehensiveReportGeneratorV3.__init__ (line 27): the size target in
KB. -/
def target_size_kb : Int := 500

/-- Python int() truncation toward zero of an exact rational. -/
def ratTrunc (q : Rat) : Int := q.num.tdiv q.den

/-- Python numeric addition acc + v as used by the += accumulation of the
statistics loop; non-numeric section values raise. -/
def pyAddNum (acc : Rat) (v : Val) : Except PyErr Rat :=
  match pyNum? v with
  | some q => .ok (acc + q)
  | Option.none => .error .typeError

/-- The accumulation loop of _calculate_report_statistics (lines
2442-2444) over the section values: total words, then total page
estimates, each read with .get defaulting to 0. -/
def stats_loop (acc : Rat × Rat) : List Val → Except PyErr (Rat × Rat)
  | [] => .ok acc
  | sd :: rest =>
      match pyGet sd "word_count" (.int 0) with
      | .error e => .error e
      | .ok wc =>
      match pyAddNum acc.1 wc with
      | .error e => .error e
      | .ok w1 =>
      match pyGet sd "page_estimate" (.int 0) with
      | .error e => .error e
      | .ok pe =>
      match pyAddNum acc.2 pe with
      | .error e => .error e
      | .ok p1 => stats_loop (w1, p1) rest

/-- ComprehensiveReportGeneratorV3._calculate_report_statistics (lines
2438-2456): sums the per-section word counts and page estimates, computes
the size in KB from the UTF-8 length of the html content when that is a
truthy string and from words*6/1024 otherwise, and reports total_pages
and total_size_kb clamped from below by the configured targets.  The
divisions by 1024 and the sums are exact rationals here; the IEEE-754
evaluation of the source agrees with them on every reachable magnitude
(division by the power of two 1024 is exact) so int() truncation
coincides.  The word total is returned as the exact numeric sum. -/
def calculate_report_statistics (report_data : Val) : Except PyErr Val :=
  match pyGetItem report_data "sections" with
  | .error e => .error e
  | .ok sections =>
      match sections with
      | .dict sd =>
          match stats_loop (0, 0) (sd.map Prod.snd) with
          | .error e => .error e
          | .ok tw =>
              match pyGet report_data "html_content" (.str "") with
              | .error e => .error e
              | .ok html =>
                  match (if html.truthy then
                           match html with
                           | .str s => Except.ok ((s.utf8ByteSize : Rat) / 1024)
                           | _ => Except.error PyErr.attributeError
                         else Except.ok (tw.1 * 6 / 1024) : Except PyErr Rat) with
                  | .error e => .error e
                  | .ok total_size_kb =>
                      .ok (Val.dict
                        [("total_pages", .int (max min_pages (ratTrunc tw.2))),
                         ("total_words", .float tw.1),
                         ("total_size_kb", .int (max target_size_kb (ratTrunc total_size_kb))),
                         ("generation_time", .int 0)])
      | _ => .error .attributeError

end CRGv3

/-- Observation of one field of a non-raising result. -/
def vfield (k : String) (r : Except PyErr Val) : Option Val :=
  match r with
  | .ok v => v.get? k
  | .error _ => Option.none

/-- The report the entry point produced: the relatorio_principal entry of
a success-shaped result, the returned dict itself on the fallback
shapes. -/
def produced_report (v : Val) : Val := (v.get? "relatorio_principal").getD v

/-- The tipo field of the produced report of an entry-point result. -/
def produced_tipo (r : Except PyErr Val) : Option Val :=
  match r with
  | .ok v => (produced_report v).get? "tipo"
  | .error _ => Option.none

end Consolidacao

namespace Consolidacao

theorem lookup_cons_pair (k k1 : String) (v1 : Val) (tl : List (String × Val)) :
    List.lookup k ((k1, v1) :: tl) = if k = k1 then some v1 else List.lookup k tl := by
  by_cases h : k = k1
  · rw [List.lookup, beq_iff_eq.mpr h, if_pos h]
  · rw [List.lookup, beq_eq_false_iff_ne.mpr h, if_neg h]

theorem lookup_dset (d : List (String × Val)) (k k' : String) (x : Val) :
    List.lookup k' (dset d k x) = if k' = k then some x else List.lookup k' d := by
  induction d with
  | nil =>
      show List.lookup k' [(k, x)] = _
      rw [lookup_cons_pair]
  | cons hd tl ih =>
      obtain ⟨k1, v1⟩ := hd
      by_cases h1 : k1 = k
      · subst h1
        by_cases h2 : k' = k1 <;> simp [dset, lookup_cons_pair, h2]
      · by_cases h2 : k' = k1
        · subst h2
          have hne : ¬k' = k := fun hh => h1 (hh ▸ rfl)
          simp [dset, h1, lookup_cons_pair, hne]
        · simp [dset, h1, lookup_cons_pair, h2, ih]

theorem get?_set (d : List (String × Val)) (k k' : String) (x : Val) :
    ((Val.dict d).set k x).get? k' = if k' = k then some x else (Val.dict d).get? k' := by
  simp [Val.set, Val.get?, lookup_dset]

theorem get?_set_ne (v : Val) (k k' : String) (x : Val) (h : k' ≠ k) :
    (v.set k x).get? k' = v.get? k' := by
  cases v <;> simp [Val.set, Val.get?, lookup_dset, h]

theorem isDict_set (v : Val) (k : String) (x : Val) : (v.set k x).isDict = v.isDict := by
  cases v <;> simp [Val.set, Val.isDict]

theorem get?_set_self (v : Val) (hv : v.isDict = true) (k : String) (x : Val) :
    (v.set k x).get? k = some x := by
  cases v <;> simp [Val.isDict] at hv <;> simp [Val.set, Val.get?, lookup_dset]

theorem get?_append_problema (v : Val) (msg : String) (k : String)
    (hk : k ≠ "problemas_identificados") :
    (append_problema v msg).get? k = v.get? k := by
  unfold append_problema
  split
  · exact get?_set_ne _ _ _ _ hk
  · rfl

theorem isDict_append_problema (v : Val) (msg : String) :
    (append_problema v msg).isDict = v.isDict := by
  unfold append_problema
  split
  · exact isDict_set _ _ _
  · rfl

theorem get?_extend_recomendacoes (v : Val) (xs : List Val) (k : String)
    (hk : k ≠ "recomendacoes") :
    (extend_recomendacoes v xs).get? k = v.get? k := by
  unfold extend_recomendacoes
  split
  · exact get?_set_ne _ _ _ _ hk
  · rfl

theorem isDict_extend_recomendacoes (v : Val) (xs : List Val) :
    (extend_recomendacoes v xs).isDict = v.isDict := by
  unfold extend_recomendacoes
  split
  · exact isDict_set _ _ _
  · rfl

theorem pyGetItem_of_get? {v : Val} {k : String} {x : Val} (h : v.get? k = some x) :
    pyGetItem v k = .ok x := by
  cases v <;> simp [Val.get?] at h <;> simp [pyGetItem, h]

end Consolidacao

namespace Consolidacao

theorem fallback_absoluto_spec (env : Env) (sid erro : String) :
    ((fallback_absoluto env sid erro).get? "tipo" = some (.str "relatorio_emergencia") ∨
     (fallback_absoluto env sid erro).get? "tipo" = some (.str "emergencia_critica")) ∧
    (fallback_absoluto env sid erro).isDict = true ∧
    (fallback_absoluto env sid erro).get? "relatorio_principal" = Option.none := by
  simp only [fallback_absoluto]
  split
  · exact ⟨Or.inl rfl, rfl, rfl⟩
  · exact ⟨Or.inr rfl, rfl, rfl⟩

theorem minimo_projeto_spec (dc r0 r1 : Val) (h : minimo_projeto dc r0 = .ok r1) :
    r1 = r0 ∨ ∃ w, r1 = r0.set "projeto_dados" w := by
  unfold minimo_projeto at h
  repeat' split at h
  all_goals first
    | exact Except.noConfusion h
    | (injection h with h; exact Or.inl h.symm)
    | (injection h with h; exact Or.inr ⟨_, h.symm⟩)

theorem minimo_core_spec (env : Env) (dc : Val) (sid : String) (val : Val) (r : Val)
    (h : gerar_relatorio_minimo_core env dc sid val = .ok r) :
    r.get? "tipo" = some (.str "relatorio_minimo") ∧ r.isDict = true := by
  simp only [gerar_relatorio_minimo_core] at h
  repeat' split at h
  all_goals try exact Except.noConfusion h
  all_goals (injection h with h; subst h)
  all_goals
    rcases minimo_projeto_spec _ _ _ (by assumption) with h0 | ⟨w, h0⟩ <;> subst h0 <;>
      exact ⟨by simp only [ne_eq, get?_set_ne, String.reduceEq, not_false_eq_true]; rfl,
             by simp only [isDict_set]; rfl⟩

theorem minimo_spec (env : Env) (dc : Val) (sid : String) (val : Val) (r : Val)
    (h : gerar_relatorio_minimo env dc sid val = .ok r) :
    (r.get? "tipo" = some (.str "relatorio_minimo") ∨
     r.get? "tipo" = some (.str "relatorio_emergencia") ∨
     r.get? "tipo" = some (.str "emergencia_critica")) ∧ r.isDict = true := by
  unfold gerar_relatorio_minimo at h
  split at h
  · next hcore =>
      injection h with h; subst h
      obtain ⟨ht, hd⟩ := minimo_core_spec env dc sid val _ hcore
      exact ⟨Or.inl ht, hd⟩
  · split at h
    · injection h with h; subst h
      obtain ⟨ht, hd, _⟩ := fallback_absoluto_spec env sid _
      refine ⟨?_, hd⟩
      rcases ht with ht | ht
      · exact Or.inr (Or.inl ht)
      · exact Or.inr (Or.inr ht)
    · exact Except.noConfusion h

end Consolidacao

namespace Consolidacao

theorem completo_loop_tipo (dc : Val) (cs : List String) (hcs : "tipo" ∉ cs) :
    ∀ r r', completo_loop dc r cs = .ok r' →
      r'.get? "tipo" = r.get? "tipo" ∧ r'.isDict = r.isDict := by
  induction cs with
  | nil =>
      intro r r' h
      unfold completo_loop at h
      injection h with h; subst h; exact ⟨rfl, rfl⟩
  | cons c cs ih =>
      intro r r' h
      have hcne : "tipo" ≠ c := fun hh => hcs (hh ▸ List.mem_cons_self c cs)
      have hcs' : "tipo" ∉ cs := fun hh => hcs (List.mem_cons_of_mem c hh)
      unfold completo_loop at h
      repeat' split at h
      all_goals try exact Except.noConfusion h
      all_goals
        first
        | (obtain ⟨h1, h2⟩ := ih hcs' _ _ h
           exact ⟨h1.trans (get?_set_ne _ _ _ _ hcne), h2.trans (isDict_set _ _ _)⟩)
        | exact ih hcs' _ _ h

theorem completo_core_spec (env : Env) (dc : Val) (sid : String) (val : Val) (r : Val)
    (h : gerar_relatorio_completo_core env dc sid val = .ok r) :
    r.get? "tipo" = some (.str "relatorio_completo") ∧ r.isDict = true := by
  simp only [gerar_relatorio_completo_core] at h
  repeat' split at h
  all_goals try exact Except.noConfusion h
  all_goals (injection h with h; subst h)
  all_goals
    obtain ⟨h1, h2⟩ := completo_loop_tipo dc componentes_principais (by decide) _ _ (by assumption)
    constructor
    · rw [get?_set_ne _ _ _ _ (by decide), get?_set_ne _ _ _ _ (by decide), h1]; rfl
    · rw [isDict_set, isDict_set, h2]; rfl

theorem completo_spec (env : Env) (dc : Val) (sid : String) (val : Val) (r : Val)
    (h : gerar_relatorio_completo env dc sid val = .ok r) :
    (r.get? "tipo" = some (.str "relatorio_completo") ∨
     r.get? "tipo" = some (.str "relatorio_minimo") ∨
     r.get? "tipo" = some (.str "relatorio_emergencia") ∨
     r.get? "tipo" = some (.str "emergencia_critica")) ∧ r.isDict = true := by
  unfold gerar_relatorio_completo at h
  split at h
  · next hcore =>
      injection h with h; subst h
      obtain ⟨ht, hd⟩ := completo_core_spec env dc sid val _ hcore
      exact ⟨Or.inl ht, hd⟩
  · split at h
    · obtain ⟨ht, hd⟩ := minimo_spec env dc sid val r h
      refine ⟨?_, hd⟩
      rcases ht with ht | ht | ht
      · exact Or.inr (Or.inl ht)
      · exact Or.inr (Or.inr (Or.inl ht))
      · exact Or.inr (Or.inr (Or.inr ht))
    · exact Except.noConfusion h

end Consolidacao

namespace Consolidacao

theorem escolher_spec (env : Env) (dc : Val) (sid : String) (val : Val) (fm : Bool)
    (suf : Val) (r : Val) (h : escolher_relatorio env dc sid val fm suf = .ok r) :
    (r.get? "tipo" = some (.str "relatorio_completo") ∨
     r.get? "tipo" = some (.str "relatorio_minimo") ∨
     r.get? "tipo" = some (.str "relatorio_emergencia") ∨
     r.get? "tipo" = some (.str "emergencia_critica")) ∧ r.isDict = true := by
  unfold escolher_relatorio at h
  split at h
  · obtain ⟨ht, hd⟩ := minimo_spec _ _ _ _ _ h
    refine ⟨?_, hd⟩
    rcases ht with ht | ht | ht
    · exact Or.inr (Or.inl ht)
    · exact Or.inr (Or.inr (Or.inl ht))
    · exact Or.inr (Or.inr (Or.inr ht))
  · exact completo_spec _ _ _ _ _ h

theorem escolher_minimal_spec (env : Env) (dc : Val) (sid : String) (val : Val) (fm : Bool)
    (suf : Val) (r : Val) (h : escolher_relatorio env dc sid val fm suf = .ok r)
    (hc : (fm || !suf.truthy) = true) :
    r.get? "tipo" = some (.str "relatorio_minimo") ∨
    r.get? "tipo" = some (.str "relatorio_emergencia") ∨
    r.get? "tipo" = some (.str "emergencia_critica") := by
  unfold escolher_relatorio at h
  rw [hc] at h
  simp only [reduceIte] at h
  exact (minimo_spec _ _ _ _ _ h).1

theorem consolidar_core_spec (env : Env) (dp : Val) (sid : String) (fm : Bool) (v : Val)
    (h : consolidar_core env dp sid fm = .ok v) :
    v.isDict = true ∧ ∃ rel, v.get? "relatorio_principal" = some rel ∧
      (rel.get? "tipo" = some (.str "relatorio_completo") ∨
       rel.get? "tipo" = some (.str "relatorio_minimo") ∨
       rel.get? "tipo" = some (.str "relatorio_emergencia") ∨
       rel.get? "tipo" = some (.str "emergencia_critica")) := by
  simp only [consolidar_core] at h
  repeat' split at h
  all_goals try exact Except.noConfusion h
  all_goals (injection h with h; subst h)
  all_goals
    refine ⟨rfl, _, rfl, ?_⟩
    rw [get?_set_ne _ _ _ _ (by decide)]
    obtain ⟨ht, _⟩ := escolher_spec _ _ _ _ _ _ _ (by assumption)
    exact ht

theorem consolidar_spec (env : Env) (dp : Val) (sid : String) (fm : Bool) (v : Val)
    (h : consolidar_analise_completa env dp sid fm = .ok v) :
    v.isDict = true ∧ ∃ t, (produced_report v).get? "tipo" = some (.str t) ∧
      t ∈ ["relatorio_completo", "relatorio_minimo", "relatorio_emergencia",
           "emergencia_critica"] := by
  unfold consolidar_analise_completa at h
  cases hc : consolidar_core env dp sid fm with
  | ok v0 =>
      simp only [hc] at h
      injection h with h
      subst h
      obtain ⟨hd, rel, hrel, htipo⟩ := consolidar_core_spec _ _ _ _ _ hc
      refine ⟨hd, ?_⟩
      have hpr : produced_report v0 = rel := by
        unfold produced_report; rw [hrel]; rfl
      rw [hpr]
      rcases htipo with ht | ht | ht | ht
      · exact ⟨_, ht, by simp⟩
      · exact ⟨_, ht, by simp⟩
      · exact ⟨_, ht, by simp⟩
      · exact ⟨_, ht, by simp⟩
  | error e =>
      simp only [hc] at h
      cases hs : env.salvar_erro "consolidacao_final" with
      | ok u =>
          simp only [hs] at h
          injection h with h
          subst h
          obtain ⟨ht, hd, hpr⟩ := fallback_absoluto_spec env sid e.msg
          refine ⟨hd, ?_⟩
          have hp : produced_report (fallback_absoluto env sid e.msg) =
              fallback_absoluto env sid e.msg := by
            unfold produced_report; rw [hpr]; rfl
          rw [hp]
          rcases ht with ht | ht
          · exact ⟨_, ht, by simp⟩
          · exact ⟨_, ht, by simp⟩
      | error e2 =>
          simp only [hs] at h
          exact Except.noConfusion h

theorem consolidar_never_error (env : Env) (dp : Val) (sid : String) (fm : Bool)
    (hsr : ∀ n, env.salvar_erro n = .ok ()) :
    ∃ v, consolidar_analise_completa env dp sid fm = .ok v := by
  unfold consolidar_analise_completa
  cases hc : consolidar_core env dp sid fm with
  | ok v => exact ⟨v, rfl⟩
  | error e => rw [hsr]; exact ⟨_, rfl⟩

theorem consolidar_core_minimal_tipo (env : Env) (dp : Val) (sid : String) (fm : Bool)
    (v rel dc val : Val)
    (h : consolidar_core env dp sid fm = .ok v)
    (hrel : v.get? "relatorio_principal" = some rel)
    (hdc : coletar_todos_dados env dp sid = .ok dc)
    (hval : validar_qualidade_dados dc = .ok val)
    (hcond : fm = true ∨ val.get? "qualidade_suficiente" = some (.bool false)) :
    rel.get? "tipo" = some (.str "relatorio_minimo") ∨
    rel.get? "tipo" = some (.str "relatorio_emergencia") ∨
    rel.get? "tipo" = some (.str "emergencia_critica") := by
  simp only [consolidar_core, hdc, hval] at h
  rcases hcond with hfm | hsuf
  · subst hfm
    repeat' split at h
    all_goals try exact Except.noConfusion h
    all_goals
      injection h with h; subst h
      simp only [Val.get?, lookup_cons_pair, String.reduceEq, reduceIte] at hrel
      injection hrel with hrel; subst hrel
      rw [get?_set_ne _ _ _ _ (by decide)]
      exact escolher_minimal_spec _ _ _ _ _ _ _ (by assumption) (by simp)
  · simp only [pyGetItem_of_get? hsuf] at h
    repeat' split at h
    all_goals try exact Except.noConfusion h
    all_goals
      injection h with h; subst h
      simp only [Val.get?, lookup_cons_pair, String.reduceEq, reduceIte] at hrel
      injection hrel with hrel; subst hrel
      rw [get?_set_ne _ _ _ _ (by decide)]
      exact escolher_minimal_spec _ _ _ _ _ _ _ (by assumption) (by simp [Val.truthy])

end Consolidacao

namespace Consolidacao

theorem consolidar_core_fm_tipo (env : Env) (dp : Val) (sid : String) (v rel : Val)
    (h : consolidar_core env dp sid true = .ok v)
    (hrel : v.get? "relatorio_principal" = some rel) :
    rel.get? "tipo" = some (.str "relatorio_minimo") ∨
    rel.get? "tipo" = some (.str "relatorio_emergencia") ∨
    rel.get? "tipo" = some (.str "emergencia_critica") := by
  simp only [consolidar_core] at h
  repeat' split at h
  all_goals try exact Except.noConfusion h
  all_goals
    injection h with h; subst h
    simp only [Val.get?, lookup_cons_pair, String.reduceEq, reduceIte] at hrel
    injection hrel with hrel; subst hrel
    rw [get?_set_ne _ _ _ _ (by decide)]
    exact escolher_minimal_spec _ _ _ _ _ _ _ (by assumption) (by simp)

/-- C1: for every dados_pipeline value (the empty mapping, None and
wrongly typed values included), every session id and every force_minimal
flag, and for every behaviour of the abstract step store whose
fire-and-forget error recorder itself succeeds (spec-modelled: the
recorder lives in the collaborator missing from the sources), the public
entry point consolidar_analise_completa returns a dict-like report and
never raises, and the tipo of the report it produces is always one of
relatorio_completo, relatorio_minimo, relatorio_emergencia and
emergencia_critica. -/
theorem consolidar_never_raises_and_tipo_enum (env : Env) (dp : Val) (sid : String)
    (fm : Bool) (hsr : ∀ n, env.salvar_erro n = .ok ()) :
    ∃ v, consolidar_analise_completa env dp sid fm = .ok v ∧ v.isDict = true ∧
      ∃ t, (produced_report v).get? "tipo" = some (.str t) ∧
        t ∈ ["relatorio_completo", "relatorio_minimo", "relatorio_emergencia",
             "emergencia_critica"] := by
  obtain ⟨v, hv⟩ := consolidar_never_error env dp sid fm hsr
  obtain ⟨hd, ht⟩ := consolidar_spec env dp sid fm v hv
  exact ⟨v, hv, hd, ht⟩

/-- A trivial step-store environment: no saved steps, no files, every
persistence operation succeeds. -/
def env_trivial : Env :=
  { listar_etapas_salvas := fun _ => .ok (.dict []),
    recuperar_etapa := fun _ _ => .ok .none,
    arquivos_scan := fun _ => ([], Option.none),
    salvar_etapa := fun _ _ _ => .ok (),
    salvar_erro := fun _ => .ok (),
    ensure_modules_exist := .ok (),
    integrate_to_final_analysis := fun _ v => .ok v,
    write_file := fun _ _ => .ok (),
    now_iso := "2026-01-01T00:00:00",
    now_stamp := "20260101_000000" }

/-- Witness for C1 at the empty pipeline input and the trivial store. -/
theorem consolidar_never_raises_witness :
    ∃ v, consolidar_analise_completa env_trivial (.dict []) "sessao" false = .ok v ∧
      v.isDict = true ∧
      ∃ t, (produced_report v).get? "tipo" = some (.str t) ∧
        t ∈ ["relatorio_completo", "relatorio_minimo", "relatorio_emergencia",
             "emergencia_critica"] :=
  consolidar_never_raises_and_tipo_enum env_trivial (.dict []) "sessao" false
    (fun _ => rfl)

/-- C2 (amended): whenever force_minimal is set or the quality validation
computed for the collected data yields qualidade_suficiente false, the
report produced by the entry point never has tipo relatorio_completo: its
tipo is relatorio_minimo when minimal assembly succeeds and otherwise the
fallback cascade yields relatorio_emergencia or emergencia_critica. -/
theorem minimal_branch_never_completo (env : Env) (dp : Val) (sid : String) (fm : Bool)
    (v : Val) (h : consolidar_analise_completa env dp sid fm = .ok v)
    (hbr : fm = true ∨ ∃ dc val, coletar_todos_dados env dp sid = .ok dc ∧
       validar_qualidade_dados dc = .ok val ∧
       val.get? "qualidade_suficiente" = some (.bool false)) :
    ∃ t, (produced_report v).get? "tipo" = some (.str t) ∧
      t ≠ "relatorio_completo" ∧
      t ∈ ["relatorio_minimo", "relatorio_emergencia", "emergencia_critica"] := by
  unfold consolidar_analise_completa at h
  cases hc : consolidar_core env dp sid fm with
  | ok v0 =>
      simp only [hc] at h
      injection h with h
      subst h
      obtain ⟨hd, rel, hrel, _⟩ := consolidar_core_spec _ _ _ _ _ hc
      have hpr : produced_report v0 = rel := by
        unfold produced_report; rw [hrel]; rfl
      rw [hpr]
      have htrio : rel.get? "tipo" = some (.str "relatorio_minimo") ∨
          rel.get? "tipo" = some (.str "relatorio_emergencia") ∨
          rel.get? "tipo" = some (.str "emergencia_critica") := by
        rcases hbr with hfm | ⟨dc, val, hdc, hval, hsuf⟩
        · subst hfm
          exact consolidar_core_fm_tipo env dp sid v0 rel hc hrel
        · exact consolidar_core_minimal_tipo env dp sid fm v0 rel dc val hc hrel hdc hval
            (Or.inr hsuf)
      rcases htrio with ht | ht | ht
      · exact ⟨_, ht, by decide, by simp⟩
      · exact ⟨_, ht, by decide, by simp⟩
      · exact ⟨_, ht, by decide, by simp⟩
  | error e =>
      simp only [hc] at h
      cases hs : env.salvar_erro "consolidacao_final" with
      | ok u =>
          simp only [hs] at h
          injection h with h
          subst h
          obtain ⟨ht, _, hpr⟩ := fallback_absoluto_spec env sid e.msg
          have hp : produced_report (fallback_absoluto env sid e.msg) =
              fallback_absoluto env sid e.msg := by
            unfold produced_report; rw [hpr]; rfl
          rw [hp]
          rcases ht with ht | ht
          · exact ⟨_, ht, by decide, by simp⟩
          · exact ⟨_, ht, by decide, by simp⟩
      | error e2 =>
          simp only [hs] at h
          exact Except.noConfusion h

end Consolidacao

namespace Consolidacao

/-- The result of the entry point on the trivial store with force_minimal
set, for instantiating the amended C2 statement. -/
def c2_witness_result : Val :=
  match consolidar_analise_completa env_trivial (.dict []) "sessao2" true with
  | .ok v => v
  | .error _ => .none

/-- Witness for the amended C2 at the trivial store with force_minimal
set. -/
theorem minimal_branch_never_completo_witness :
    ∃ t, (produced_report c2_witness_result).get? "tipo" = some (.str t) ∧
      t ≠ "relatorio_completo" ∧
      t ∈ ["relatorio_minimo", "relatorio_emergencia", "emergencia_critica"] :=
  minimal_branch_never_completo env_trivial (.dict []) "sessao2" true c2_witness_result
    (by rfl) (Or.inl rfl)

/-- The adversarial step store refuting C2 as stated: one saved step named
componentes_disponiveis whose recovered data is a list holding a list, so
the recovery loop clobbers the component roster with an unhashable entry;
minimal assembly then raises on the dict-membership test of the
recovered-components loop and the cascade degrades to the emergency
report. -/
def env_c2 : Env :=
  { env_trivial with
    listar_etapas_salvas := fun _ => .ok (.dict [("componentes_disponiveis", .dict [])]),
    recuperar_etapa := fun _ _ =>
      .ok (.dict [("status", .str "sucesso"), ("dados", .list [.list [.int 1]])]) }

/-- C2 counterexample: with force_minimal set (so the minimal branch is
taken), the entry point can produce a report whose tipo is
relatorio_emergencia rather than relatorio_minimo, refuting the claim
that the assembler always returns tipo relatorio_minimo on that branch. -/
theorem minimal_branch_tipo_counterexample :
    produced_tipo (consolidar_analise_completa env_c2 (.dict []) "sessaoC2" true) =
      some (.str "relatorio_emergencia") ∧
    (some (Val.str "relatorio_emergencia") : Option Val) ≠
      some (.str "relatorio_minimo") := by
  constructor
  · rfl
  · simp

/-- A validator input carrying the four signals with the given counts: a
drivers dict with dm customized drivers, pv visual proofs, a research dict
reporting pf unique sources and ins exclusive insights, over an empty
component roster. -/
def mkQualInput (dm pv pf ins : Nat) : Val :=
  .dict [("componentes_disponiveis", .list []),
         ("drivers_mentais_customizados",
           .dict [("drivers_customizados", .list (List.replicate dm .none))]),
         ("provas_visuais_sugeridas", .list (List.replicate pv .none)),
         ("pesquisa_web_massiva", .dict [("unique_sources", .int pf)]),
         ("insights_exclusivos", .list (List.replicate ins .none))]

/-- C3 counterexample: at exactly the configured minimum counts for all
four signals the computed score is 80, not 100, because the score divides
the satisfied criteria by the five configured thresholds rather than by
the four signals. -/
theorem score_at_minimums_not_100 :
    vfield "score_qualidade" (validar_qualidade_dados (mkQualInput 2 1 3 5)) =
      some (.int 80) ∧
    (some (Val.int 80) : Option Val) ≠ some (.int 100) := by
  constructor
  · rfl
  · simp

/-- C3 (amended): satisfied counts the four signals against their fixed
minimums, but the score divides by the five configured thresholds, the
fifth of which (min_content_length) is never checked; hence at exactly the
minimum counts for all four signals the score is 80 with sufficiency true,
and lowering exactly one signal to one below its minimum decreases the
satisfied count by one and the score by exactly 20 = 100 / total criteria. -/
theorem threshold_boundary_amended :
    (vfield "score_qualidade" (validar_qualidade_dados (mkQualInput 2 1 3 5)) =
        some (.int 80) ∧
     vfield "qualidade_suficiente" (validar_qualidade_dados (mkQualInput 2 1 3 5)) =
        some (.bool true)) ∧
    (vfield "score_qualidade" (validar_qualidade_dados (mkQualInput 1 1 3 5)) =
        some (.int 60) ∧
     vfield "score_qualidade" (validar_qualidade_dados (mkQualInput 2 0 3 5)) =
        some (.int 60) ∧
     vfield "score_qualidade" (validar_qualidade_dados (mkQualInput 2 1 2 5)) =
        some (.int 60) ∧
     vfield "score_qualidade" (validar_qualidade_dados (mkQualInput 2 1 3 4)) =
        some (.int 60)) ∧
    (80 : Int) - 60 = 20 ∧ (100 : Int) / (quality_thresholds.length : Int) = 20 := by
  exact ⟨⟨rfl, rfl⟩, ⟨rfl, rfl, rfl, rfl⟩, rfl, by decide⟩

/-- The scenario-A collected data: two customized drivers and five
exclusive insights, no visual proofs and no research sources, over an
empty component roster. -/
def dados_scenario_A : Val :=
  .dict [("componentes_disponiveis", .list []),
         ("drivers_mentais_customizados",
           .dict [("drivers_customizados", .list [.str "d1", .str "d2"])]),
         ("insights_exclusivos",
           .list [.str "i1", .str "i2", .str "i3", .str "i4", .str "i5"])]

/-- A step store delivering exactly the two scenario-A steps. -/
def env_scenario_A : Env :=
  { env_trivial with
    listar_etapas_salvas := fun _ =>
      .ok (.dict [("drivers_mentais_customizados", .dict []),
                  ("insights_exclusivos", .dict [])]),
    recuperar_etapa := fun name _ =>
      if name = "drivers_mentais_customizados" then
        .ok (.dict [("status", .str "sucesso"),
                    ("dados", .dict [("drivers_customizados",
                                       .list [.str "d1", .str "d2"])])])
      else
        .ok (.dict [("status", .str "sucesso"),
                    ("dados", .list [.str "i1", .str "i2", .str "i3",
                                     .str "i4", .str "i5"])]) }

/-- C4 counterexample: on scenario A the computed score is 40, not the 50
the claim states. -/
theorem scenario_A_score_not_50 :
    vfield "score_qualidade" (validar_qualidade_dados dados_scenario_A) = some (.int 40) ∧
    (some (Val.int 40) : Option Val) ≠ some (.int 50) := by
  constructor
  · rfl
  · simp

/-- C4 (amended): scenario A yields drivers_mentais_count 2,
insights_count 5, provas_visuais_count 0, pesquisa_fontes 0, two satisfied
criteria, score 40 (not 50), qualidade_suficiente false, and the
end-to-end pipeline over a store delivering exactly those two steps
produces a minimal report. -/
theorem scenario_A_amended :
    vfield "drivers_mentais_count" (validar_qualidade_dados dados_scenario_A) =
      some (.int 2) ∧
    vfield "insights_count" (validar_qualidade_dados dados_scenario_A) = some (.int 5) ∧
    vfield "provas_visuais_count" (validar_qualidade_dados dados_scenario_A) =
      some (.int 0) ∧
    vfield "pesquisa_fontes" (validar_qualidade_dados dados_scenario_A) = some (.int 0) ∧
    vfield "score_qualidade" (validar_qualidade_dados dados_scenario_A) = some (.int 40) ∧
    vfield "qualidade_suficiente" (validar_qualidade_dados dados_scenario_A) =
      some (.bool false) ∧
    produced_tipo (consolidar_analise_completa env_scenario_A (.dict [])
        "sessao_teste" false) =
      some (.str "relatorio_minimo") := by
  exact ⟨rfl, rfl, rfl, rfl, rfl, rfl, rfl⟩

end Consolidacao

namespace Consolidacao

theorem get?_ite (c : Prop) [Decidable c] (a b : Val) (k : String) :
    (if c then a else b).get? k = if c then a.get? k else b.get? k :=
  apply_ite (fun w => Val.get? w k) c a b

theorem isDict_ite (c : Prop) [Decidable c] (a b : Val) :
    (if c then a else b).isDict = if c then a.isDict else b.isDict :=
  apply_ite Val.isDict c a b

theorem contar_criterios_nonneg (dm pv : Int) (b3 : Bool) (ic : Int) :
    0 ≤ contar_criterios dm pv b3 ic := by
  unfold contar_criterios
  split_ifs <;> omega

theorem contar_criterios_le_four (dm pv : Int) (b3 : Bool) (ic : Int) :
    contar_criterios dm pv b3 ic ≤ 4 := by
  unfold contar_criterios
  split_ifs <;> omega

theorem validar_try_cases (d : List (String × Val)) (v0 : Val)
    (hsuf : v0.get? "qualidade_suficiente" = some (.bool false))
    (hscore : v0.get? "score_qualidade" = Option.none)
    (hdict : v0.isDict = true) :
    ((validar_qualidade_try d v0).get? "qualidade_suficiente" = some (.bool false) ∧
     (validar_qualidade_try d v0).get? "score_qualidade" = Option.none) ∨
    (∃ k : Int, 0 ≤ k ∧ k ≤ 4 ∧
      (validar_qualidade_try d v0).get? "qualidade_suficiente" =
        some (.bool (decide (3 ≤ k))) ∧
      (validar_qualidade_try d v0).get? "score_qualidade" = some (.int (k * 20))) := by
  simp only [validar_qualidade_try]
  split
  · left
    rw [get?_append_problema _ _ _ (by decide), get?_append_problema _ _ _ (by decide),
      hsuf, hscore]
    exact ⟨rfl, rfl⟩
  · next dm heq =>
    split
    · left
      constructor <;>
        · simp only [ne_eq, get?_ite, get?_append_problema, get?_set_ne, ite_self,
            String.reduceEq, not_false_eq_true, hsuf, hscore]
    · next b3 heq2 =>
      right
      refine ⟨contar_criterios dm (sig_provas d) b3 (sig_insights d),
        contar_criterios_nonneg _ _ _ _, contar_criterios_le_four _ _ _ _, ?_, ?_⟩ <;>
        · simp only [ne_eq, get?_ite, get?_append_problema, get?_extend_recomendacoes,
            get?_set_ne, get?_set_self, isDict_ite, isDict_set, isDict_append_problema,
            hdict, ite_self, String.reduceEq, not_false_eq_true]
end Consolidacao

namespace Consolidacao

theorem validar_ok_cases (dc v : Val) (h : validar_qualidade_dados dc = .ok v) :
    (v.get? "qualidade_suficiente" = some (.bool false) ∧
     v.get? "score_qualidade" = Option.none) ∨
    (∃ k : Int, 0 ≤ k ∧ k ≤ 4 ∧
      v.get? "qualidade_suficiente" = some (.bool (decide (3 ≤ k))) ∧
      v.get? "score_qualidade" = some (.int (k * 20))) := by
  unfold validar_qualidade_dados at h
  repeat' split at h
  all_goals try exact Except.noConfusion h
  all_goals (injection h with h; subst h)
  exact validar_try_cases _ _ rfl rfl rfl

/-- C5: the simple validator satisfies at most 4 of its 5 configured
criteria (min_content_length is counted in the denominator but never
checked), so score_qualidade never exceeds 80 and a score of 100 is
unreachable; moreover qualidade_suficiente can be true while one of the
four signals fails its minimum, because 3 satisfied criteria of 5 give
exactly the 0.6 sufficiency ratio — witnessed by an input whose
visual-proof signal fails its minimum yet is declared sufficient. -/
theorem simple_validator_score_capped :
    (∀ dc v n, validar_qualidade_dados dc = .ok v →
       v.get? "score_qualidade" = some (.int n) → n ≤ 80 ∧ n ≠ 100) ∧
    (vfield "qualidade_suficiente" (validar_qualidade_dados (mkQualInput 2 0 3 5)) =
       some (.bool true) ∧
     vfield "provas_visuais_count" (validar_qualidade_dados (mkQualInput 2 0 3 5)) =
       some (.int 0)) := by
  constructor
  · intro dc v n hok hscore
    rcases validar_ok_cases dc v hok with ⟨_, hnone⟩ | ⟨k, hk0, hk4, _, hs⟩
    · rw [hscore] at hnone
      exact Option.noConfusion hnone
    · have hn : Val.int (k * 20) = Val.int n := by
        have := hs.symm.trans hscore
        injection this
      injection hn with hn
      omega
  · exact ⟨rfl, rfl⟩

/-- The validation value of the all-minimums input, for instantiating the
universally quantified claims. -/
def val_all_minimums : Val :=
  match validar_qualidade_dados (mkQualInput 2 1 3 5) with
  | .ok v => v
  | .error _ => .none

/-- Witness for C5 at the all-minimums input, whose score is exactly the
cap 80. -/
theorem simple_validator_score_capped_witness : (80 : Int) ≤ 80 ∧ (80 : Int) ≠ 100 :=
  simple_validator_score_capped.1 (mkQualInput 2 1 3 5) val_all_minimums 80 (by rfl) (by rfl)

end Consolidacao

namespace Consolidacao

theorem get?_dict (d : List (String × Val)) (k : String) :
    (Val.dict d).get? k = List.lookup k d := rfl

theorem isDict_dict (d : List (String × Val)) : (Val.dict d).isDict = true := rfl

theorem integridade_iff (dados : Val) :
    ((validar_integridade_dados dados).get? "dados_suficientes" = some (.bool true) ↔
     ∃ (q : Rat) (f : Int),
       (validar_integridade_dados dados).get? "score_qualidade" = some (.float q) ∧
       75 ≤ q ∧
       (validar_integridade_dados dados).get? "total_fontes" = some (.int f) ∧
       5 ≤ f) := by
  simp only [validar_integridade_dados]
  split
  · simp [get?_set_ne, get?_dict, lookup_cons_pair]
  · split
    · split
      · simp [get?_set_ne, get?_set_self, isDict_set, isDict_dict, get?_dict,
          lookup_cons_pair]
      · next fontesOpt heq =>
          cases fontesOpt <;>
            simp [get?_ite, get?_extend_recomendacoes, get?_set_ne, get?_set_self,
              isDict_set, isDict_dict, ite_self, get?_dict, lookup_cons_pair,
              Bool.and_eq_true, decide_eq_true_eq]
    · simp [get?_ite, get?_extend_recomendacoes, get?_set_ne, get?_set_self, isDict_set,
        isDict_dict, ite_self, get?_dict, lookup_cons_pair, Bool.and_eq_true,
        decide_eq_true_eq]

end Consolidacao

namespace Consolidacao

/-- C6: the simple validator sets qualidade_suficiente true iff the
fraction of satisfied criteria reaches 0.6 — equivalently iff the
returned score (that fraction times 100) is at least 60 — and the deep
validator sets dados_suficientes true iff its module score reaches 75
(at least 6 of the 8 required modules) and at least 5 research sources
were counted. -/
theorem sufficiency_thresholds_iff :
    (∀ dc v, validar_qualidade_dados dc = .ok v →
       (v.get? "qualidade_suficiente" = some (.bool true) ↔
        ∃ n : Int, v.get? "score_qualidade" = some (.int n) ∧ 60 ≤ n)) ∧
    (∀ dados,
       ((validar_integridade_dados dados).get? "dados_suficientes" = some (.bool true) ↔
        ∃ (q : Rat) (f : Int),
          (validar_integridade_dados dados).get? "score_qualidade" = some (.float q) ∧
          75 ≤ q ∧
          (validar_integridade_dados dados).get? "total_fontes" = some (.int f) ∧
          5 ≤ f)) := by
  constructor
  · intro dc v hok
    rcases validar_ok_cases dc v hok with ⟨hsuf, hnone⟩ | ⟨k, hk0, hk4, hsuf, hscore⟩
    · rw [hsuf, hnone]; simp
    · rw [hsuf, hscore]
      simp only [Option.some.injEq, Val.bool.injEq, Val.int.injEq, decide_eq_true_eq]
      constructor
      · intro h3
        exact ⟨k * 20, rfl, by omega⟩
      · rintro ⟨n, hn, h60⟩
        omega
  · exact integridade_iff

/-- Witness for C6 at the all-minimums input for the simple validator and
the empty dict for the deep validator. -/
theorem sufficiency_thresholds_iff_witness :
    (val_all_minimums.get? "qualidade_suficiente" = some (.bool true) ↔
     ∃ n : Int, val_all_minimums.get? "score_qualidade" = some (.int n) ∧ 60 ≤ n) ∧
    ((validar_integridade_dados (.dict [])).get? "dados_suficientes" =
        some (.bool true) ↔
     ∃ (q : Rat) (f : Int),
       (validar_integridade_dados (.dict [])).get? "score_qualidade" =
         some (.float q) ∧ 75 ≤ q ∧
       (validar_integridade_dados (.dict [])).get? "total_fontes" =
         some (.int f) ∧ 5 ≤ f) :=
  ⟨sufficiency_thresholds_iff.1 (mkQualInput 2 1 3 5) val_all_minimums (by rfl),
   sufficiency_thresholds_iff.2 (.dict [])⟩

end Consolidacao

namespace Consolidacao

theorem validar_try_counts (d : List (String × Val)) (v0 : Val)
    (hdm : v0.get? "drivers_mentais_count" = some (.int 0))
    (hpv : v0.get? "provas_visuais_count" = some (.int 0))
    (hpf : v0.get? "pesquisa_fontes" = some (.int 0))
    (hic : v0.get? "insights_count" = some (.int 0))
    (hdict : v0.isDict = true) :
    (∀ dm, sig_drivers d = .ok dm →
       (validar_qualidade_try d v0).get? "drivers_mentais_count" = some (.int dm) ∧
       (validar_qualidade_try d v0).get? "provas_visuais_count" =
         some (.int (sig_provas d)) ∧
       (validar_qualidade_try d v0).get? "pesquisa_fontes" = some (sig_pesquisa d) ∧
       (validar_qualidade_try d v0).get? "insights_count" =
         some (.int (sig_insights d))) ∧
    (∀ e, sig_drivers d = .error e →
       (validar_qualidade_try d v0).get? "drivers_mentais_count" = some (.int 0) ∧
       (validar_qualidade_try d v0).get? "provas_visuais_count" = some (.int 0) ∧
       (validar_qualidade_try d v0).get? "pesquisa_fontes" = some (.int 0) ∧
       (validar_qualidade_try d v0).get? "insights_count" = some (.int 0)) := by
  constructor
  · intro dm hdmok
    simp only [validar_qualidade_try, hdmok]
    split <;>
      refine ⟨?_, ?_, ?_, ?_⟩ <;>
        simp only [ne_eq, get?_ite, get?_append_problema, get?_extend_recomendacoes,
          get?_set_ne, get?_set_self, isDict_ite, isDict_set, isDict_append_problema,
          hdict, ite_self, String.reduceEq, not_false_eq_true]
  · intro e hdmerr
    simp only [validar_qualidade_try, hdmerr]
    refine ⟨?_, ?_, ?_, ?_⟩ <;>
      simp only [ne_eq, get?_append_problema, String.reduceEq, not_false_eq_true,
        hdm, hpv, hpf, hic]

/-- C7: a signal key that is absent from the collected data, or whose
value has the wrong outer type (a non-dict where the drivers or research
dict is expected, a non-list where the visual-proof or insight list is
expected), contributes a count of zero to the corresponding field of the
quality assessment, and the validator never raises on such inputs
(given the componentes_disponiveis roster present and sized, the only
precondition of the pre-try header). -/
theorem signals_absent_or_malformed (d : List (String × Val)) (comp : Val) (n : Int)
    (hcomp : List.lookup "componentes_disponiveis" d = some comp)
    (hlen : pyLen comp = .ok n) :
    (∃ v, validar_qualidade_dados (.dict d) = .ok v) ∧
    (∀ v, validar_qualidade_dados (.dict d) = .ok v →
      (((match List.lookup "drivers_mentais_customizados" d with
         | Option.none => True
         | some x => ∀ dd, x ≠ Val.dict dd) →
          v.get? "drivers_mentais_count" = some (.int 0)) ∧
       ((match List.lookup "provas_visuais_sugeridas" d with
         | Option.none => True
         | some x => ∀ l, x ≠ Val.list l) →
          v.get? "provas_visuais_count" = some (.int 0)) ∧
       ((match List.lookup "pesquisa_web_massiva" d with
         | Option.none => True
         | some x => ∀ dd, x ≠ Val.dict dd) →
          v.get? "pesquisa_fontes" = some (.int 0)) ∧
       ((match List.lookup "insights_exclusivos" d with
         | Option.none => True
         | some x => ∀ l, x ≠ Val.list l) →
          v.get? "insights_count" = some (.int 0)))) := by
  have hok : validar_qualidade_dados (.dict d) = .ok (validar_qualidade_try d
      (Val.dict
        [("qualidade_suficiente", .bool false),
         ("componentes_encontrados", .int n),
         ("drivers_mentais_count", .int 0),
         ("provas_visuais_count", .int 0),
         ("pesquisa_fontes", .int 0),
         ("insights_count", .int 0),
         ("problemas_identificados", .list []),
         ("recomendacoes", .list [])])) := by
    simp only [validar_qualidade_dados, hcomp, hlen]
  refine ⟨⟨_, hok⟩, ?_⟩
  intro v hv
  rw [hok] at hv
  injection hv with hv
  subst hv
  have hcounts := validar_try_counts d
    (Val.dict
      [("qualidade_suficiente", .bool false),
       ("componentes_encontrados", .int n),
       ("drivers_mentais_count", .int 0),
       ("provas_visuais_count", .int 0),
       ("pesquisa_fontes", .int 0),
       ("insights_count", .int 0),
       ("problemas_identificados", .list []),
       ("recomendacoes", .list [])]) rfl rfl rfl rfl rfl
  refine ⟨?_, ?_, ?_, ?_⟩
  · intro hcond
    have hsig : sig_drivers d = .ok 0 := by
      unfold sig_drivers
      cases hx : List.lookup "drivers_mentais_customizados" d with
      | none => rfl
      | some x =>
          simp only [hx] at hcond
          cases x <;> first | rfl | exact absurd rfl (hcond _)
    exact (hcounts.1 0 hsig).1
  · intro hcond
    have hsp : sig_provas d = 0 := by
      unfold sig_provas
      cases hx : List.lookup "provas_visuais_sugeridas" d with
      | none => rfl
      | some x =>
          simp only [hx] at hcond
          cases x <;> first | rfl | exact absurd rfl (hcond _)
    cases hsig : sig_drivers d with
    | ok dm =>
        have hh := (hcounts.1 dm hsig).2.1
        rw [hsp] at hh
        exact hh
    | error e => exact (hcounts.2 e hsig).2.1
  · intro hcond
    have hsp : sig_pesquisa d = .int 0 := by
      unfold sig_pesquisa
      cases hx : List.lookup "pesquisa_web_massiva" d with
      | none => rfl
      | some x =>
          simp only [hx] at hcond
          cases x <;> first | rfl | exact absurd rfl (hcond _)
    cases hsig : sig_drivers d with
    | ok dm =>
        have hh := (hcounts.1 dm hsig).2.2.1
        rw [hsp] at hh
        exact hh
    | error e => exact (hcounts.2 e hsig).2.2.1
  · intro hcond
    have hsp : sig_insights d = 0 := by
      unfold sig_insights
      cases hx : List.lookup "insights_exclusivos" d with
      | none => rfl
      | some x =>
          simp only [hx] at hcond
          cases x <;> first | rfl | exact absurd rfl (hcond _)
    cases hsig : sig_drivers d with
    | ok dm =>
        have hh := (hcounts.1 dm hsig).2.2.2
        rw [hsp] at hh
        exact hh
    | error e => exact (hcounts.2 e hsig).2.2.2

/-- A collected mapping whose four signal keys all carry wrongly typed
values. -/
def c7_input : List (String × Val) :=
  [("componentes_disponiveis", .list []),
   ("drivers_mentais_customizados", .int 7),
   ("provas_visuais_sugeridas", .str "x"),
   ("pesquisa_web_massiva", .none),
   ("insights_exclusivos", .dict [])]

/-- Witness for C7 at a mapping whose four signal values are all of the
wrong type: the validator succeeds and reports every count as zero. -/
theorem signals_absent_or_malformed_witness :
    ∃ v, validar_qualidade_dados (.dict c7_input) = .ok v ∧
      v.get? "drivers_mentais_count" = some (.int 0) ∧
      v.get? "provas_visuais_count" = some (.int 0) ∧
      v.get? "pesquisa_fontes" = some (.int 0) ∧
      v.get? "insights_count" = some (.int 0) := by
  obtain ⟨v, hv⟩ := (signals_absent_or_malformed c7_input (.list []) 0 rfl rfl).1
  have h4 := (signals_absent_or_malformed c7_input (.list []) 0 rfl rfl).2 v hv
  exact ⟨v, hv,
    h4.1 (fun dd h => Val.noConfusion h),
    h4.2.1 (fun l h => Val.noConfusion h),
    h4.2.2.1 (fun dd h => Val.noConfusion h),
    h4.2.2.2 (fun l h => Val.noConfusion h)⟩

end Consolidacao

namespace Consolidacao

theorem any_beq_eq_lookup (d : List (String × Val)) (c : String) :
    d.any (fun p => p.1 == c) = (List.lookup c d).isSome := by
  induction d with
  | nil => rfl
  | cons hd tl ih =>
      obtain ⟨k1, v1⟩ := hd
      by_cases h : c = k1
      · subst h
        simp [lookup_cons_pair]
      · have hne : (k1 == c) = false := beq_eq_false_iff_ne.mpr (fun hh => h hh.symm)
        simp [lookup_cons_pair, h, hne, ih]

theorem pyIn_str_dict (d : List (String × Val)) (c : String) :
    pyIn (.str c) (.dict d) = .ok (List.lookup c d).isSome := by
  simp only [pyIn, pyDictContains, any_beq_eq_lookup]

theorem completo_loop_ok (d dp : List (String × Val))
    (hdp : List.lookup "dados_pipeline" d = some (.dict dp)) (cs : List String) :
    ∀ (r : Val), r.isDict = true →
      ∃ r', completo_loop (.dict d) r cs = .ok r' ∧ r'.isDict = true ∧
        ∀ k, r'.get? k =
          (if k ∈ cs then (List.lookup k d).or (List.lookup k dp)
           else Option.none).or (r.get? k) := by
  induction cs with
  | nil =>
      intro r hr
      exact ⟨r, rfl, hr, fun k => by simp⟩
  | cons c cs ih =>
      intro r hr
      cases hlk : List.lookup c d with
      | some w =>
          obtain ⟨r', hr', hd', hform⟩ := ih (r.set c w) ((isDict_set r c w).trans hr)
          refine ⟨r', ?_, hd', ?_⟩
          · simp only [completo_loop, pyIn_str_dict, hlk, Option.isSome_some, pyGetItem]
            exact hr'
          · intro k
            rw [hform k]
            by_cases hkc : k = c
            · subst hkc
              by_cases hkcs : k ∈ cs <;>
                simp [hkcs, hlk, get?_set_self r hr, List.mem_cons]
            · by_cases hkcs : k ∈ cs <;>
                simp [hkcs, hkc, get?_set_ne r c k w hkc, List.mem_cons]
      | none =>
          cases hlk2 : List.lookup c dp with
          | some w =>
              obtain ⟨r', hr', hd', hform⟩ := ih (r.set c w) ((isDict_set r c w).trans hr)
              refine ⟨r', ?_, hd', ?_⟩
              · simp only [completo_loop, pyIn_str_dict, hlk, Option.isSome_none, pyGet,
                  hdp, Option.getD_some, pyGetItem, hlk2, Option.isSome_some]
                exact hr'
              · intro k
                rw [hform k]
                by_cases hkc : k = c
                · subst hkc
                  by_cases hkcs : k ∈ cs <;>
                    simp [hkcs, hlk, hlk2, get?_set_self r hr, List.mem_cons]
                · by_cases hkcs : k ∈ cs <;>
                    simp [hkcs, hkc, get?_set_ne r c k w hkc, List.mem_cons]
          | none =>
              obtain ⟨r', hr', hd', hform⟩ := ih r hr
              refine ⟨r', ?_, hd', ?_⟩
              · simp only [completo_loop, pyIn_str_dict, hlk, Option.isSome_none, pyGet,
                  hdp, Option.getD_some, hlk2]
                exact hr'
              · intro k
                rw [hform k]
                by_cases hkc : k = c
                · subst hkc
                  by_cases hkcs : k ∈ cs <;>
                    simp [hkcs, hlk, hlk2, List.mem_cons]
                · by_cases hkcs : k ∈ cs <;>
                    simp [hkcs, hkc, List.mem_cons]

/-- C8: when the full-report body runs over a collected dict whose
dados_pipeline entry is a dict and a validation carrying a score (the
state in which the sufficient-quality branch reaches it), it succeeds,
and for each module of the fixed allow-list the report carries the value
from the collected steps when the key is present there, else the value
from the nested dados_pipeline object when present there, and otherwise
omits the key; and the report always carries resumo_executivo and
diagnostico_final blocks. -/
theorem full_report_module_copy (env : Env) (d dp : List (String × Val)) (sid : String)
    (val score : Val)
    (hdp : List.lookup "dados_pipeline" d = some (.dict dp))
    (hscore : val.get? "score_qualidade" = some score) :
    ∃ r, gerar_relatorio_completo_core env (.dict d) sid val = .ok r ∧
      (∀ c ∈ componentes_principais,
        r.get? c = (List.lookup c d).or (List.lookup c dp)) ∧
      (∃ re, r.get? "resumo_executivo" = some re) ∧
      (∃ df, r.get? "diagnostico_final" = some df) := by
  obtain ⟨r1, hloop, hd1, hform⟩ := completo_loop_ok d dp hdp componentes_principais
    (Val.dict [("tipo", .str "relatorio_completo"), ("session_id", .str sid),
      ("timestamp", .str env.now_iso), ("qualidade_validada", .bool true),
      ("score_qualidade", score)]) rfl
  refine ⟨(r1.set "resumo_executivo" (gerar_resumo_executivo (.dict d) val)).set
      "diagnostico_final" (gerar_diagnostico_final (.dict d) val), ?_, ?_, ?_, ?_⟩
  · simp only [gerar_relatorio_completo_core, pyGetItem_of_get? hscore, hloop]
  · intro c hc
    have hne1 : c ≠ "diagnostico_final" := by fin_cases hc <;> decide
    have hne2 : c ≠ "resumo_executivo" := by fin_cases hc <;> decide
    rw [get?_set_ne _ _ _ _ hne1, get?_set_ne _ _ _ _ hne2, hform c, if_pos hc]
    have hz : (Val.dict [("tipo", Val.str "relatorio_completo"),
        ("session_id", Val.str sid), ("timestamp", Val.str env.now_iso),
        ("qualidade_validada", Val.bool true),
        ("score_qualidade", score)]).get? c = Option.none := by
      fin_cases hc <;> rfl
    rw [hz, Option.or_none]
  · exact ⟨gerar_resumo_executivo (.dict d) val, by
      rw [get?_set_ne _ _ _ _ (by decide)]
      exact get?_set_self r1 hd1 _ _⟩
  · exact ⟨gerar_diagnostico_final (.dict d) val,
      get?_set_self _ ((isDict_set r1 _ _).trans hd1) _ _⟩

/-- A collected dict for instantiating the full-report copy rule: one
module present at top level, one only inside dados_pipeline, the rest
absent. -/
def c8_input : List (String × Val) :=
  [("dados_pipeline", .dict [("projeto_dados", .str "meta"),
                             ("avatar_ultra_detalhado", .str "avatar")]),
   ("componentes_disponiveis", .list []),
   ("insights_exclusivos", .list [.str "i1"])]

/-- Witness for C8 at a concrete collected dict and validation. -/
theorem full_report_module_copy_witness :
    ∃ r, gerar_relatorio_completo_core env_trivial (.dict c8_input) "sessao"
        (.dict [("score_qualidade", .int 80)]) = .ok r ∧
      (∀ c ∈ componentes_principais,
        r.get? c = (List.lookup c c8_input).or
          (List.lookup c [("projeto_dados", Val.str "meta"),
                          ("avatar_ultra_detalhado", Val.str "avatar")])) ∧
      (∃ re, r.get? "resumo_executivo" = some re) ∧
      (∃ df, r.get? "diagnostico_final" = some df) :=
  full_report_module_copy env_trivial c8_input
    [("projeto_dados", Val.str "meta"), ("avatar_ultra_detalhado", Val.str "avatar")]
    "sessao" (.dict [("score_qualidade", .int 80)]) (.int 80) rfl rfl

end Consolidacao

namespace Consolidacao

theorem lookup_append_single (acc : List (String × Val)) (k k' : String) (v : Val) :
    List.lookup k' (acc ++ [(k, v)]) =
      (List.lookup k' acc).or (if k' = k then some v else Option.none) := by
  induction acc with
  | nil =>
      rw [List.nil_append, lookup_cons_pair]
      by_cases h : k' = k <;> simp [h, List.lookup]
  | cons hd tl ih =>
      obtain ⟨k1, v1⟩ := hd
      rw [List.cons_append, lookup_cons_pair, lookup_cons_pair]
      by_cases h1 : k' = k1 <;> simp [h1, ih]

theorem lookup_none_of_notin (acc : List (String × Val)) (k : String)
    (h : k ∉ acc.map Prod.fst) : List.lookup k acc = Option.none := by
  induction acc with
  | nil => rfl
  | cons hd tl ih =>
      obtain ⟨k1, v1⟩ := hd
      simp only [List.map_cons, List.mem_cons] at h
      push_neg at h
      rw [lookup_cons_pair, if_neg h.1]
      exact ih h.2

theorem formats_fold_notin (env : Env) (rel : Val) (sid : String)
    (L : List (String × (Val → String → Except PyErr String)))
    (fmt : String) (hfmt : fmt ∉ L.map Prod.fst) :
    ∀ acc, List.lookup fmt (L.foldl (formato_step env rel sid) acc) =
      List.lookup fmt acc := by
  induction L with
  | nil => intro acc; rfl
  | cons p L' ih =>
      intro acc
      simp only [List.map_cons, List.mem_cons] at hfmt
      push_neg at hfmt
      rw [List.foldl_cons, ih hfmt.2]
      unfold formato_step
      split
      · rfl
      · split
        · rw [lookup_append_single, if_neg hfmt.1, Option.or_none]
        · rfl

theorem formats_fold_lookup (env : Env) (rel : Val) (sid : String)
    (L : List (String × (Val → String → Except PyErr String)))
    (fmt : String) (gen : Val → String → Except PyErr String)
    (hmem : (fmt, gen) ∈ L) (hnd : (L.map Prod.fst).Nodup) :
    ∀ acc, fmt ∉ acc.map Prod.fst →
      List.lookup fmt (L.foldl (formato_step env rel sid) acc) =
        (match gen rel sid with
         | .ok c => if c ≠ "" then some (.str (salvar_formato env c fmt sid))
                    else Option.none
         | .error _ => Option.none) := by
  induction L with
  | nil => exact absurd hmem (List.not_mem_nil _)
  | cons p L' ih =>
      intro acc hacc
      rw [List.foldl_cons]
      rcases List.mem_cons.mp hmem with heq | htail
      · subst heq
        simp only [List.map_cons, List.nodup_cons] at hnd
        rw [formats_fold_notin env rel sid L' fmt hnd.1]
        simp only [formato_step]
        cases hg : gen rel sid with
        | error e => simp [hg, lookup_none_of_notin acc fmt hacc]
        | ok c =>
            by_cases hcne : c = ""
            · simp [hg, hcne, lookup_none_of_notin acc fmt hacc]
            · simp [hg, hcne, lookup_append_single, lookup_none_of_notin acc fmt hacc]
      · simp only [List.map_cons, List.nodup_cons] at hnd
        have hne : p.1 ≠ fmt := by
          intro hh
          exact hnd.1 (hh ▸ List.mem_map.mpr ⟨(fmt, gen), htail, rfl⟩)
        refine ih htail hnd.2 (formato_step env rel sid acc p) ?_
        simp only [formato_step]
        cases hg : p.2 rel sid with
        | error e => exact hacc
        | ok c =>
            by_cases hcne : c = ""
            · simpa [hcne] using hacc
            · simp only [hcne, ne_eq, not_false_eq_true, if_true, List.map_append,
                List.map_cons, List.map_nil]
              intro hc
              rcases List.mem_append.mp hc with hc | hc
              · exact hacc hc
              · have hfp := List.mem_singleton.mp hc
                exact hne hfp.symm

/-- C9: rendering is total (render-all never raises: the result is always
a dict of format names to path strings) and each of the four registered
format generators contributes independently: the result maps the format
name exactly when its own generator succeeds with non-empty content — to
the saved path — and a failing generator only omits its own format, so
partial success is a valid outcome. -/
theorem render_all_format_independence (env : Env) (relatorio : Val) (sid : String)
    (fmt : String) (gen : Val → String → Except PyErr String)
    (hmem : (fmt, gen) ∈ template_engines) :
    (gerar_multiplos_formatos env relatorio sid).isDict = true ∧
    (gerar_multiplos_formatos env relatorio sid).get? fmt =
      (match gen relatorio sid with
       | .ok c => if c ≠ "" then some (.str (salvar_formato env c fmt sid))
                  else Option.none
       | .error _ => Option.none) := by
  refine ⟨rfl, ?_⟩
  unfold gerar_multiplos_formatos
  rw [get?_dict]
  exact formats_fold_lookup env relatorio sid template_engines fmt gen hmem
    (by simp [template_engines]) [] (by simp)

/-- A report whose drivers block carries a non-iterable payload, making
the markdown renderer fail while the other renderers succeed. -/
def rel_md_fail : Val :=
  .dict [("drivers_mentais_customizados", .dict [("drivers_customizados", .int 3)])]

/-- Witness for C9: on rel_md_fail the markdown format is omitted while
the json format is present with its saved path. -/
theorem render_all_format_independence_witness :
    (gerar_multiplos_formatos env_trivial rel_md_fail "sessao").get? "markdown" =
      Option.none ∧
    (gerar_multiplos_formatos env_trivial rel_md_fail "sessao").get? "json" =
      some (.str (salvar_formato env_trivial (pyJsonDumps rel_md_fail) "json"
        "sessao")) := by
  constructor
  · rw [(render_all_format_independence env_trivial rel_md_fail "sessao" "markdown"
      generate_markdown_report (by simp [template_engines])).2]
    rfl
  · rw [(render_all_format_independence env_trivial rel_md_fail "sessao" "json"
      generate_json_report (by simp [template_engines])).2]
    rfl

end Consolidacao

namespace Consolidacao

theorem get?_of_pyGetItem : ∀ {v : Val} {k : String} {x : Val},
    pyGetItem v k = .ok x → v.get? k = some x := by
  intro v k x h
  cases v with
  | dict d =>
      simp only [pyGetItem] at h
      split at h
      · next w heq =>
          injection h with h
          subst h
          rw [get?_dict]
          exact heq
      · exact Except.noConfusion h
  | none => exact Except.noConfusion h
  | bool b => exact Except.noConfusion h
  | int n => exact Except.noConfusion h
  | float q => exact Except.noConfusion h
  | str s => exact Except.noConfusion h
  | list l => exact Except.noConfusion h

/-- C10: the comprehensive-report statistics clamp the reported figures to
the configured targets: whenever the computation succeeds, total_pages is
the maximum of min_pages = 25 and the truncated sum of the per-section
page estimates, and total_size_kb is the maximum of target_size_kb = 500
and the truncated computed size, so neither reported figure ever falls
below its target however little content the sections hold. -/
theorem report_statistics_clamped (rd s : Val)
    (h : CRGv3.calculate_report_statistics rd = .ok s) :
    ∃ (sd : List (String × Val)) (tw tp sz : Rat),
      rd.get? "sections" = some (.dict sd) ∧
      CRGv3.stats_loop (0, 0) (sd.map Prod.snd) = .ok (tw, tp) ∧
      s.get? "total_pages" = some (.int (max 25 (CRGv3.ratTrunc tp))) ∧
      s.get? "total_size_kb" = some (.int (max 500 (CRGv3.ratTrunc sz))) ∧
      (∀ p : Int, s.get? "total_pages" = some (.int p) → 25 ≤ p) ∧
      (∀ k : Int, s.get? "total_size_kb" = some (.int k) → 500 ≤ k) := by
  unfold CRGv3.calculate_report_statistics at h
  cases h1 : pyGetItem rd "sections" with
  | error e => simp only [h1] at h; exact Except.noConfusion h
  | ok sections =>
      simp only [h1] at h
      cases sections with
      | dict sd =>
          cases h2 : CRGv3.stats_loop (0, 0) (sd.map Prod.snd) with
          | error e => simp only [h2] at h; exact Except.noConfusion h
          | ok tw =>
              simp only [h2] at h
              cases h3 : pyGet rd "html_content" (.str "") with
              | error e => simp only [h3] at h; exact Except.noConfusion h
              | ok html =>
                  simp only [h3] at h
                  by_cases h4 : html.truthy = true
                  · rw [if_pos h4] at h
                    cases html with
                    | str hs =>
                        injection h with h
                        subst h
                        refine ⟨sd, tw.1, tw.2, (hs.utf8ByteSize : Rat) / 1024,
                          get?_of_pyGetItem h1, h2, rfl, rfl, ?_, ?_⟩
                        · intro p hp
                          injection hp with hp
                          injection hp with hp
                          rw [← hp]
                          exact le_max_left _ _
                        · intro k hk
                          injection hk with hk
                          injection hk with hk
                          rw [← hk]
                          exact le_max_left _ _
                    | none => exact Except.noConfusion h
                    | bool b => exact Except.noConfusion h
                    | int n => exact Except.noConfusion h
                    | float q => exact Except.noConfusion h
                    | list l => exact Except.noConfusion h
                    | dict d2 => exact Except.noConfusion h
                  · rw [if_neg h4] at h
                    injection h with h
                    subst h
                    refine ⟨sd, tw.1, tw.2, tw.1 * 6 / 1024,
                      get?_of_pyGetItem h1, h2, rfl, rfl, ?_, ?_⟩
                    · intro p hp
                      injection hp with hp
                      injection hp with hp
                      rw [← hp]
                      exact le_max_left _ _
                    · intro k hk
                      injection hk with hk
                      injection hk with hk
                      rw [← hk]
                      exact le_max_left _ _
      | none => exact Except.noConfusion h
      | bool b => exact Except.noConfusion h
      | int n => exact Except.noConfusion h
      | float q => exact Except.noConfusion h
      | str s2 => exact Except.noConfusion h
      | list l => exact Except.noConfusion h

/-- A one-section report with almost no content, for instantiating the
clamping rule: the reported totals stay at the 25-page and 500 KB
targets. -/
def rd_tiny : Val :=
  .dict [("sections", .dict [("executive_summary",
            .dict [("word_count", .int 10), ("page_estimate", .int 1)])])]

/-- The statistics value of the tiny report. -/
def rd_tiny_stats : Val :=
  match CRGv3.calculate_report_statistics rd_tiny with
  | .ok v => v
  | .error _ => .none

/-- Witness for C10 at a one-section, ten-word report. -/
theorem report_statistics_clamped_witness :
    ∃ (sd : List (String × Val)) (tw tp sz : Rat),
      rd_tiny.get? "sections" = some (.dict sd) ∧
      CRGv3.stats_loop (0, 0) (sd.map Prod.snd) = .ok (tw, tp) ∧
      rd_tiny_stats.get? "total_pages" = some (.int (max 25 (CRGv3.ratTrunc tp))) ∧
      rd_tiny_stats.get? "total_size_kb" =
        some (.int (max 500 (CRGv3.ratTrunc sz))) ∧
      (∀ p : Int, rd_tiny_stats.get? "total_pages" = some (.int p) → 25 ≤ p) ∧
      (∀ k : Int, rd_tiny_stats.get? "total_size_kb" = some (.int k) → 500 ≤ k) :=
  report_statistics_clamped rd_tiny rd_tiny_stats (by rfl)

end Consolidacao
